import Mathlib

/-!
The CatatUang WhatsApp bot (examples/whatsapp_bot.js)

A shallow embedding of the class CatatUangBot: the message dispatcher
handleMessage and the three handlers handleExpenseMessage,
handleReportRequest and sendHelpMessage, together with the ECMAScript
built-ins they call (trim, startsWith, toLowerCase, replace, property
access, template-literal string conversion, toLocaleString in the id-ID
locale and Object.entries).

Modelling conventions.
* A JavaScript string is a Lean String, that is a sequence of Unicode code
  points. All operations used by the bot act on characters of the basic
  plane in the same way on code units and on code points; strings holding
  unpaired surrogates are outside the embedding.
* A JavaScript number is modelled when it is a non-negative integer, by a
  Nat. Its decimal renderings are computed for the safe integers (below
  2^53); for larger values they are fields of World, so that nothing is
  claimed about them.
* The outside world (the HTTP server behind axios, the chat session behind
  msg.reply, the clock) is an explicit record of outcomes, World.
* console.log and console.error only write diagnostics and are left out.
-/

set_option autoImplicit false
set_option maxRecDepth 4000

namespace CatatUang

/-! ## Strings -/

/-- The code points removed by String.prototype.trim: the WhiteSpace and
LineTerminator productions of ECMAScript (tab, LF, VT, FF, CR, space, NBSP,
the Unicode space separators, LS, PS and the byte order mark). -/
def isTrimChar (c : Char) : Bool :=
  c.toNat = 0x09 || c.toNat = 0x0A || c.toNat = 0x0B || c.toNat = 0x0C ||
  c.toNat = 0x0D || c.toNat = 0x20 || c.toNat = 0xA0 || c.toNat = 0x1680 ||
  (0x2000 ≤ c.toNat && c.toNat ≤ 0x200A) || c.toNat = 0x2028 ||
  c.toNat = 0x2029 || c.toNat = 0x202F || c.toNat = 0x205F ||
  c.toNat = 0x3000 || c.toNat = 0xFEFF

/-- String.prototype.trim: strips the trim characters from both ends. -/
def trim (s : String) : String :=
  ⟨((s.data.dropWhile isTrimChar).reverse.dropWhile isTrimChar).reverse⟩

/-- String.prototype.startsWith with a string argument (position 0). -/
def startsWith (s p : String) : Bool :=
  p.data.isPrefixOf s.data

/-- The lower-case mapping of one ASCII character: A-Z go to a-z, every other
ASCII character is unchanged. -/
def asciiLower (c : Char) : Char :=
  if 65 ≤ c.toNat ∧ c.toNat ≤ 90 then Char.ofNat (c.toNat + 32) else c

/-- The lower-case mapping of the Unicode Character Database for characters
outside ASCII, which may depend on the characters before and after (the
final-sigma rule) and may yield several characters. The table is not part of
the repository and is a parameter of the embedding. -/
abbrev UnicodeLower := List Char → Char → List Char → List Char

/-- The worker of toLowerCase: maps the characters from left to right, with
the characters already passed in before. -/
def lowerFrom (ul : UnicodeLower) (before : List Char) : List Char → List Char
  | [] => []
  | c :: after =>
    (if c.toNat < 128 then [asciiLower c] else ul before c after) ++
      lowerFrom ul (before ++ [c]) after

/-- String.prototype.toLowerCase (locale-insensitive): every code point is
replaced by its lower-case mapping. -/
def toLowerCase (ul : UnicodeLower) (s : String) : String :=
  ⟨lowerFrom ul [] s.data⟩

/-- The index of the first occurrence of the pattern in the text, if any
(String.prototype.indexOf). -/
def indexOfFrom (pat : List Char) : List Char → Nat → Option Nat
  | [], i => if pat = [] then some i else none
  | c :: cs, i => if pat.isPrefixOf (c :: cs) then some i else indexOfFrom pat cs (i + 1)

/-- String.prototype.includes. -/
def includes (s pat : String) : Bool :=
  (indexOfFrom pat.data s.data 0).isSome

/-- The worker of replace: copies the text up to the first occurrence of the
pattern, puts the replacement there and copies the rest. -/
def replaceFirst (pat rep : List Char) : List Char → List Char
  | [] => if pat = [] then rep else []
  | c :: cs =>
    if pat.isPrefixOf (c :: cs) then rep ++ (c :: cs).drop pat.length
    else c :: replaceFirst pat rep cs

/-- String.prototype.replace with a string pattern and a replacement string
without dollar sign: only the first occurrence of the pattern is replaced,
and a text without the pattern is returned unchanged. -/
def replace (s pat rep : String) : String :=
  ⟨replaceFirst pat.data rep.data s.data⟩

/-! ## Numbers -/

/-- The first integer that is not a safe integer, 2^53. Below it every
integer is a number of its own, and both Number::toString and toLocaleString
write all of its digits. From it on a number is a double with fewer
significant digits than its integer value has, and the two conversions write
the shortest digits that identify the double (and toString an exponent from
10^21 on), which the embedding does not compute. -/
def safeBound : Nat := 9007199254740992

/-- The plain decimal numeral of a natural number. -/
def decimalText (n : Nat) : String :=
  ⟨Nat.toDigits 10 n⟩

/-- Groups a list of digits given from the least significant one: a
separator follows every third digit that is not the last. -/
def groupRev : List Char → List Char
  | a :: b :: c :: rest =>
    if rest = [] then [a, b, c] else a :: b :: c :: '.' :: groupRev rest
  | l => l

/-- The decimal numeral of a natural number grouped by three from the right,
with the full stop as grouping separator (CLDR data of the Indonesian
locale). -/
def groupedText (n : Nat) : String :=
  ⟨(groupRev (Nat.toDigits 10 n).reverse).reverse⟩

/-! ## Values -/

/-- The values a response body can hold after JSON parsing (arrays are not
modelled), the value undefined, and the built-in members that every object
inherits from Object.prototype. -/
inductive JSVal where
  | undefined : JSVal
  | null : JSVal
  | bool (b : Bool) : JSVal
  | num (n : Nat) : JSVal
  | str (s : String) : JSVal
  | obj (props : List (String × JSVal)) : JSVal
  | builtin (name : String) : JSVal

/-- The outcomes of the calls on the collaborators while one message is
handled, and the parts of the platform that the embedding does not compute.
A request either rejects (timeout, connection error, error status), written
none, or resolves with a response whose data field holds the given value.
The k-th call of msg.reply (counted from 0) resolves when replyOk k holds
and rejects otherwise. The field now is the text of
new Date().toLocaleString('id-ID') when the report is rendered, and
unicodeLower is the lower-case table of the platform. The fields
largeNumberText and largeNumberLocaleText are the results of Number::toString
and of toLocaleString('id-ID') for the integers from 2^53 on, and
primitiveMember is the result of reading a member, by a computed key, from a
string, a number or a boolean (an index character, the length, a method of
the wrapper). -/
structure World where
  post : String → String → Option JSVal
  get : String → Option JSVal
  replyOk : Nat → Bool
  now : String
  unicodeLower : UnicodeLower
  largeNumberText : Nat → String
  largeNumberLocaleText : Nat → String
  primitiveMember : JSVal → String → JSVal

/-- Number::toString for a non-negative integer: its decimal digits when it
is a safe integer, else the text the platform gives. -/
def numberToString (w : World) (n : Nat) : String :=
  if n < safeBound then decimalText n else w.largeNumberText n

/-- Number.prototype.toLocaleString with the locale id-ID for a
non-negative integer: for a safe integer the decimal digits grouped by three
from the right with the full stop as separator, else the text the platform
gives. -/
def numberToLocaleString (w : World) (n : Nat) : String :=
  if n < safeBound then groupedText n else w.largeNumberLocaleText n

/-- The names of the members of Object.prototype. -/
def objectPrototypeKeys : List String :=
  ["constructor", "__defineGetter__", "__defineSetter__", "hasOwnProperty",
   "__lookupGetter__", "__lookupSetter__", "isPrototypeOf", "propertyIsEnumerable",
   "toString", "valueOf", "__proto__", "toLocaleString"]

/-- The own property with the given key, in a property list in insertion
order. -/
def lookupProp (key : String) : List (String × JSVal) → Option JSVal
  | [] => none
  | (k, v) :: rest => if k = key then some v else lookupProp key rest

/-- Property access v.key or v[key]. It throws (TypeError) on undefined and
null. An object yields its own property, else the member inherited from
Object.prototype, else undefined. For a string, a number or a boolean this
definition serves the reads by a fixed key of the response format (status,
message, data, summary and so on), which no wrapper has, so that the result
is undefined; the one read by a computed key, the count of a category, goes
through World.primitiveMember instead (see categoryCount). -/
def getProp (v : JSVal) (key : String) : Except Unit JSVal :=
  match v with
  | .undefined => .error ()
  | .null => .error ()
  | .obj props =>
    match lookupProp key props with
    | some x => .ok x
    | none => if key ∈ objectPrototypeKeys then .ok (.builtin key) else .ok .undefined
  | _ => .ok .undefined

/-- The text of a member of Object.prototype: the prototype object itself
for __proto__, else the source text of a native function. -/
def builtinText (name : String) : String :=
  if name = "__proto__" then "[object Object]"
  else if name = "constructor" then "function Object() \x7b [native code] \x7d"
  else "function " ++ name ++ "() \x7b [native code] \x7d"

/-- ToString, as applied by a template literal. An object parsed from JSON
has no callable member of its own, so an own property toString makes the
conversion throw; without it Object.prototype.toString answers. -/
def toStr (w : World) : JSVal → Except Unit String
  | .undefined => .ok "undefined"
  | .null => .ok "null"
  | .bool b => .ok (if b then "true" else "false")
  | .num n => .ok (numberToString w n)
  | .str s => .ok s
  | .obj props =>
    if (lookupProp "toString" props).isSome then .error () else .ok "[object Object]"
  | .builtin name => .ok (builtinText name)

/-- The method call v.toLocaleString('id-ID'). It throws on undefined and
null; a number is formatted by the locale; every other value goes through
Object.prototype.toLocaleString, which calls toString. -/
def toLocaleString (w : World) : JSVal → Except Unit String
  | .undefined => .error ()
  | .null => .error ()
  | .num n => .ok (numberToLocaleString w n)
  | .obj props =>
    if (lookupProp "toLocaleString" props).isSome then .error () else toStr w (.obj props)
  | v => toStr w v

/-- ToBoolean. -/
def truthy : JSVal → Bool
  | .undefined => false
  | .null => false
  | .bool b => b
  | .num n => n != 0
  | .str s => s != ""
  | .obj _ => true
  | .builtin _ => true

/-- The operator a || b. -/
def orElse (a b : JSVal) : JSVal :=
  if truthy a then a else b

/-- Strict equality with a string literal: v === lit. -/
def strictEqStr (v : JSVal) (lit : String) : Bool :=
  match v with
  | .str s => s = lit
  | _ => false

/-- The number written by a list of decimal digits. -/
def decimalValue (ds : List Char) : Nat :=
  ds.foldl (fun acc c => 10 * acc + (c.toNat - 48)) 0

/-- The array index named by a property key: the key must be the canonical
decimal form of an integer below 2^32 - 1. -/
def arrayIndex? (key : String) : Option Nat :=
  if key.data ≠ [] ∧ key.data.all Char.isDigit then
    let v := decimalValue key.data
    if v < 4294967295 ∧ decimalText v = key then some v else none
  else none

/-- The order of the own property keys of an ordinary object: first the
keys that are array indices, in ascending numeric order, then the other keys
in insertion order. -/
def ownPropertyOrder {α : Type} (props : List (String × α)) : List (String × α) :=
  (props.filter fun p => (arrayIndex? p.1).isSome).insertionSort
      (fun p q => (arrayIndex? p.1).getD 0 ≤ (arrayIndex? q.1).getD 0) ++
    props.filter fun p => !(arrayIndex? p.1).isSome

/-- Object.entries: the own enumerable properties in own-property order. A
string has one property per character, keyed by its position (a string has
fewer than 2^53 characters, so a position is written in plain decimal); the
other primitive values and the built-ins have none. -/
def objectEntries : JSVal → List (String × JSVal)
  | .obj props => ownPropertyOrder props
  | .str s => s.data.enum.map fun p => (decimalText p.1, .str (String.singleton p.2))
  | _ => []

/-! ## The outside world and the effects of a handler -/

/-- The calls a handler makes on its collaborators, in the order they are
made: axios.post(url, {text}), axios.get(url) and msg.reply(text). -/
inductive Effect where
  | post (url text : String) : Effect
  | get (url : String) : Effect
  | reply (text : String) : Effect
  deriving DecidableEq

/-- The state of an async function when it settles, or when it throws: the
calls made so far and whether it threw. -/
structure Run where
  trace : List Effect
  threw : Bool
  deriving DecidableEq

/-- An async function body: it continues from the calls made so far. -/
abbrev Task := List Effect → Run

/-- The texts passed to msg.reply, in order. -/
def replies : List Effect → List String
  | [] => []
  | .reply t :: rest => t :: replies rest
  | _ :: rest => replies rest

/-- The requests sent through axios, in order. -/
def remoteCalls : List Effect → List Effect
  | [] => []
  | .reply _ :: rest => remoteCalls rest
  | e :: rest => e :: remoteCalls rest

/-- The statement await msg.reply(text): the call is recorded, and it throws
when the chat session rejects it. -/
def msgReply (w : World) (text : String) : Task := fun tr =>
  { trace := tr ++ [.reply text], threw := !w.replyOk (replies tr).length }

/-- The statement try { body } catch (error) { handler }. -/
def tryCatch (body handler : Task) : Task := fun tr =>
  let r := body tr
  if r.threw then handler r.trace else r

/-- A body that throws at once. -/
def throwNow : Task := fun tr => { trace := tr, threw := true }

/-- A body that does nothing. -/
def skip : Task := fun tr => { trace := tr, threw := false }

/-! ## The bot -/

/-- The text rendered in the try block of handleExpenseMessage from
response.data, before msg.reply is called; an error is a TypeError thrown
while rendering. -/
def expenseReplyText (w : World) (result : JSVal) : Except Unit String := do
  let status ← getProp result "status"
  if strictEqStr status "success" then
    let data ← getProp result "data"
    let kategori ← getProp data "kategori" >>= toStr w
    let jumlah ← getProp data "jumlah" >>= toLocaleString w
    let keterangan ← getProp data "keterangan" >>= toStr w
    let timestamp ← getProp data "timestamp" >>= toStr w
    pure ("✅ *Data berhasil disimpan!*\n\n" ++
      "📝 *Kategori:* " ++ kategori ++ "\n" ++
      "💰 *Jumlah:* Rp " ++ jumlah ++ "\n" ++
      "📋 *Keterangan:* " ++ keterangan ++ "\n" ++
      "🕒 *Waktu:* " ++ timestamp)
  else
    let message ← getProp result "message" >>= toStr w
    pure ("❌ *Error:* " ++ message ++ "\n\n📖 Format: #kategori jumlah keterangan")

/-- The reply of the catch block of handleExpenseMessage. -/
def expenseFailureText : String := "❌ Gagal menyimpan data. Pastikan server berjalan."

/-- The method handleExpenseMessage(msg, text). -/
def handleExpenseMessage (w : World) (webhookUrl text : String) : Task :=
  tryCatch
    (fun tr =>
      let tr1 := tr ++ [.post webhookUrl text]
      match w.post webhookUrl text with
      | none => throwNow tr1
      | some result =>
        match expenseReplyText w result with
        | .error _ => throwNow tr1
        | .ok replyText => msgReply w replyText tr1)
    (msgReply w expenseFailureText)

/-- The expression summary.category_counts?.[kategori] || 0. The optional
chain yields undefined when category_counts is undefined or null; an object
is read by getProp; a string, a number or a boolean is read through the
platform. -/
def categoryCount (w : World) (summary : JSVal) (kategori : String) : Except Unit JSVal := do
  let counts ← getProp summary "category_counts"
  let count ← match counts with
    | .undefined => pure JSVal.undefined
    | .null => pure JSVal.undefined
    | .obj props => getProp (.obj props) kategori
    | c => pure (w.primitiveMember c kategori)
  pure (orElse count (.num 0))

/-- One round of the loop over Object.entries(categories): the line added
to reportText. -/
def categoryLine (w : World) (summary : JSVal) (entry : String × JSVal) :
    Except Unit String := do
  let count ← categoryCount w summary entry.1
  let total ← toLocaleString w entry.2
  let shown ← toStr w count
  pure ("• *" ++ entry.1 ++ ":* Rp " ++ total ++ " (" ++ shown ++ "x)\n")

/-- The loop over Object.entries(categories), appending to reportText. -/
def categoryLines (w : World) (summary : JSVal) :
    List (String × JSVal) → String → Except Unit String
  | [], reportText => pure reportText
  | entry :: rest, reportText => do
    let line ← categoryLine w summary entry
    categoryLines w summary rest (reportText ++ line)

/-- The text rendered in the try block of handleReportRequest from
response.data, before msg.reply is called. -/
def reportReplyText (w : World) (result : JSVal) : Except Unit String := do
  let status ← getProp result "status"
  if strictEqStr status "success" then
    let summary ← getProp result "summary"
    let reportText := "📊 *LAPORAN PENGELUARAN* 📊\n\n"
    let categories := orElse (← getProp summary "categories") (.obj [])
    let reportText ← categoryLines w summary (objectEntries categories) reportText
    let totalExpense ← getProp summary "total_expense" >>= toLocaleString w
    let reportText := reportText ++ ("\n💰 *Total:* Rp " ++ totalExpense ++ "\n")
    let totalTransactions ← getProp summary "total_transactions" >>= toStr w
    let reportText := reportText ++ ("📝 *Transaksi:* " ++ totalTransactions ++ "\n\n")
    pure (reportText ++ ("🕒 *Dibuat:* " ++ w.now))
  else
    let message ← getProp result "message" >>= toStr w
    pure ("❌ *Error:* " ++ message)

/-- The reply of the catch block of handleReportRequest. -/
def reportFailureText : String := "❌ Gagal membuat laporan. Pastikan server berjalan."

/-- The address of the report request: this.webhookUrl.replace('/webhook',
'/report'). -/
def reportUrl (webhookUrl : String) : String :=
  replace webhookUrl "/webhook" "/report"

/-- The method handleReportRequest(msg). -/
def handleReportRequest (w : World) (webhookUrl : String) : Task :=
  tryCatch
    (fun tr =>
      let tr1 := tr ++ [.get (reportUrl webhookUrl)]
      match w.get (reportUrl webhookUrl) with
      | none => throwNow tr1
      | some result =>
        match reportReplyText w result with
        | .error _ => throwNow tr1
        | .ok replyText => msgReply w replyText tr1)
    (msgReply w reportFailureText)

/-- The constant helpText of sendHelpMessage. -/
def helpText : String :=
  "🤖 *CatatUang Bot*\n\n" ++
  "📝 *Format pengeluaran:*\n" ++
  "#kategori jumlah keterangan\n\n" ++
  "📋 *Contoh:*\n" ++
  "• #jajan 15000 bakso\n" ++
  "• #transport 25000 ojek ke kantor\n" ++
  "• #makan 30000 nasi padang\n" ++
  "• #kopi 12000 es kopi susu\n\n" ++
  "📊 *Perintah lain:*\n" ++
  "• \"laporan\" - Lihat laporan pengeluaran\n" ++
  "• \"help\" - Bantuan ini\n\n" ++
  "💡 *Tips:* Kategori harus satu kata tanpa spasi"

/-- The method sendHelpMessage(msg). -/
def sendHelpMessage (w : World) : Task :=
  msgReply w helpText

/-- The reply of the catch block of handleMessage. -/
def messageFailureText : String := "❌ Terjadi kesalahan. Coba lagi nanti."

/-- The method handleMessage(msg), for a message with the given body. -/
def handleMessage (w : World) (webhookUrl body : String) : Task :=
  let text := trim body
  tryCatch
    (if startsWith text "#" then
      handleExpenseMessage w webhookUrl text
    else if toLowerCase w.unicodeLower text = "laporan" ∨
        toLowerCase w.unicodeLower text = "report" then
      handleReportRequest w webhookUrl
    else if toLowerCase w.unicodeLower text = "help" ∨ text = "?" then
      sendHelpMessage w
    else skip)
    (msgReply w messageFailureText)

/-! ## Closed forms used in the proofs -/

/-- The text reported by a handler whose try block sends one request, renders
a text from the answer and replies with it: none when the request rejects or
the rendering throws. -/
def plannedText (answer : Option JSVal) (render : JSVal → Except Unit String) : Option String :=
  match answer with
  | none => none
  | some result =>
    match render result with
    | .error _ => none
    | .ok t => some t

/-- The run of a handler of the shape shared by handleExpenseMessage and
handleReportRequest, in closed form. -/
def handlerRun (w : World) (request : Effect) (planned : Option String) (fallback : String)
    (tr : List Effect) : Run :=
  match planned with
  | some t =>
    if w.replyOk (replies tr).length then
      { trace := tr ++ [request, .reply t], threw := false }
    else
      { trace := tr ++ [request, .reply t, .reply fallback],
        threw := !w.replyOk ((replies tr).length + 1) }
  | none =>
    { trace := tr ++ [request, .reply fallback], threw := !w.replyOk (replies tr).length }

/-! ## Sample data -/

/-- The address configured in the script. -/
def sampleUrl : String := "https://your-app.vercel.app/api/webhook"

/-- A successful answer of the expense endpoint. -/
def sampleExpenseData : JSVal :=
  .obj [("kategori", .str "jajan"), ("jumlah", .num 15000), ("keterangan", .str "bakso"),
    ("timestamp", .str "2024-01-01 10:00")]

/-- A successful summary of the report endpoint. -/
def sampleSummary : JSVal :=
  .obj [("categories", .obj [("jajan", .num 15000), ("transport", .num 25000)]),
    ("category_counts", .obj [("jajan", .num 1), ("transport", .num 1)]),
    ("total_expense", .num 40000), ("total_transactions", .num 2)]

/-- A world where both endpoints answer with success and every reply is
delivered. -/
def sampleWorld : World :=
  { post := fun _ _ => some (.obj [("status", .str "success"), ("data", sampleExpenseData)]),
    get := fun _ => some (.obj [("status", .str "success"), ("summary", sampleSummary)]),
    replyOk := fun _ => true,
    now := "1/1/2024, 10.00.00",
    unicodeLower := fun _ c _ => [c],
    largeNumberText := fun _ => "",
    largeNumberLocaleText := fun _ => "",
    primitiveMember := fun _ _ => .undefined }

/-- A world like the sample one where the chat session rejects the first
call of msg.reply and delivers the later ones. -/
def firstReplyLostWorld : World :=
  { sampleWorld with replyOk := fun k => k != 0 }

/-- The condition under which handleMessage does not ignore a message with
the given body: one of its three tests holds. -/
def isHandled (w : World) (body : String) : Prop :=
  startsWith (trim body) "#" = true ∨
    (toLowerCase w.unicodeLower (trim body) = "laporan" ∨
      toLowerCase w.unicodeLower (trim body) = "report") ∨
    (toLowerCase w.unicodeLower (trim body) = "help" ∨ trim body = "?")

instance (w : World) (body : String) : Decidable (isHandled w body) := by
  unfold isHandled; infer_instance

/-- The text s writes the number n in decimal with a full stop between
groups of three digits: it holds only digits and full stops; without the
full stops it is the plain decimal form of n and denotes n; counted from the
right, a position holds a full stop exactly when it is the fourth, the
eighth and so on; and the text does not start with a full stop. -/
def GroupedDecimal (n : Nat) (s : String) : Prop :=
  (∀ c ∈ s.data, c.isDigit = true ∨ c = '.') ∧
    (s.data.filter fun c => c != '.') = (decimalText n).data ∧
    decimalValue (s.data.filter fun c => c != '.') = n ∧
    (∀ i, i < s.data.length → (s.data.reverse[i]? = some '.' ↔ i % 4 = 3)) ∧
    s.data.head? ≠ some '.'

/-- A world where the expense endpoint answers with a JSON object that is
not of the expected form: it has neither status nor message. -/
def unexpectedBodyWorld : World :=
  { sampleWorld with post := fun _ _ => some (.obj [("ok", .bool true)]) }

/-- A world where the expense endpoint answers with a page that is no JSON
text, which axios hands over as a string. -/
def htmlBodyWorld : World :=
  { sampleWorld with post := fun _ _ => some (.str "<html>502 Bad Gateway</html>") }

/-- A world where the request to the expense endpoint times out. -/
def timeoutWorld : World :=
  { sampleWorld with post := fun _ _ => none }

/-- The properties of an object all of whose values are numbers. -/
def numProps (l : List (String × Nat)) : List (String × JSVal) :=
  l.map fun p => (p.1, JSVal.num p.2)

/-- The number stored under a key in a list of numeric properties. -/
def lookupNat (key : String) : List (String × Nat) → Option Nat
  | [] => none
  | (k, v) :: rest => if k = key then some v else lookupNat key rest

/-- The count of a category as the specification states it, for a
category_counts that is absent (none) or an object of numbers: the stored
number, and 0 when category_counts is absent or lacks the key. It is compared
with categoryCount, which embeds the code. -/
def countShown (counts : Option (List (String × Nat))) (kategori : String) : Nat :=
  match counts with
  | none => 0
  | some cs => (lookupNat kategori cs).getD 0

/-- The line of the report for one category as the specification states it:
the name, the formatted total and the count. It is compared with
categoryLine, which embeds the code. -/
def categoryLineText (counts : Option (List (String × Nat))) (entry : String × Nat) : String :=
  "• *" ++ entry.1 ++ ":* Rp " ++ groupedText entry.2 ++ " (" ++
    decimalText (countShown counts entry.1) ++ "x)\n"

/-- A summary whose second category is named by a year. -/
def yearSummary : JSVal :=
  .obj [("categories", .obj [("makan", .num 30000), ("2024", .num 5000)]),
    ("category_counts", .obj [("makan", .num 2), ("2024", .num 1)]),
    ("total_expense", .num 35000), ("total_transactions", .num 3)]

/-- A world where the report endpoint answers with the year summary. -/
def yearWorld : World :=
  { sampleWorld with
    get := fun _ => some (.obj [("status", .str "success"), ("summary", yearSummary)]) }

/-- A summary with a category named constructor, for which category_counts
has no entry. -/
def constructorSummary : JSVal :=
  .obj [("categories", .obj [("constructor", .num 1000)]),
    ("category_counts", .obj []),
    ("total_expense", .num 1000), ("total_transactions", .num 1)]

/-- A world where the report endpoint answers with the constructor summary. -/
def constructorWorld : World :=
  { sampleWorld with
    get := fun _ => some (.obj [("status", .str "success"), ("summary", constructorSummary)]) }

/-- The calls of msg.reply made when the given texts are tried in order,
the first of them being call number k, until one call is delivered: a
rejected call is followed by the call with the next text, and nothing
follows a delivered call or the last text. -/
def attempts (ok : Nat → Bool) : Nat → List String → List String
  | _, [] => []
  | k, t :: rest => if ok k then [t] else t :: attempts ok (k + 1) rest

/-- Every one of the calls number k, k + 1, ... made for the given texts is
rejected. -/
def allRejected (ok : Nat → Bool) : Nat → List String → Bool
  | _, [] => true
  | k, _ :: rest => !ok k && allRejected ok (k + 1) rest

/-- The texts handleMessage has for a message, in the order it tries them.
On the expense and report paths: the text rendered in the try block of the
handler (none when the request rejects or the rendering throws), then the
failure text of the catch block of the handler, then the failure text of
the catch block of handleMessage. On the help path: the help text, then the
failure text of handleMessage. -/
def replyPlan (w : World) (url body : String) : List String :=
  if startsWith (trim body) "#" then
    (plannedText (w.post url (trim body)) (expenseReplyText w)).toList ++
      [expenseFailureText, messageFailureText]
  else if toLowerCase w.unicodeLower (trim body) = "laporan" ∨
      toLowerCase w.unicodeLower (trim body) = "report" then
    (plannedText (w.get (reportUrl url)) (reportReplyText w)).toList ++
      [reportFailureText, messageFailureText]
  else if toLowerCase w.unicodeLower (trim body) = "help" ∨ trim body = "?" then
    [helpText, messageFailureText]
  else []

/-- A world like the sample one where the chat session rejects every call of
msg.reply. -/
def allRepliesLostWorld : World :=
  { sampleWorld with replyOk := fun _ => false }

/-- A world where the expense endpoint answers with the JSON text null. -/
def nullBodyWorld : World :=
  { sampleWorld with post := fun _ _ => some .null }

/-- A world where the expense endpoint answers with success and no data. -/
def noDataWorld : World :=
  { sampleWorld with post := fun _ _ => some (.obj [("status", .str "success")]) }

/-- A world where the expense endpoint answers with success and data without
jumlah. -/
def noJumlahWorld : World :=
  { sampleWorld with
    post := fun _ _ => some (.obj [("status", .str "success"),
      ("data", .obj [("kategori", .str "jajan"), ("keterangan", .str "bakso")])]) }

/-! ## Basic facts about traces and the control operators -/

theorem replies_append (a b : List Effect) : replies (a ++ b) = replies a ++ replies b := by
  induction a with
  | nil => rfl
  | cons e rest ih => cases e <;> simp [replies, ih]

theorem remoteCalls_append (a b : List Effect) :
    remoteCalls (a ++ b) = remoteCalls a ++ remoteCalls b := by
  induction a with
  | nil => rfl
  | cons e rest ih => cases e <;> simp [remoteCalls, ih]

theorem handleExpenseMessage_eq (w : World) (url text : String) (tr : List Effect) :
    handleExpenseMessage w url text tr =
      handlerRun w (.post url text) (plannedText (w.post url text) (expenseReplyText w))
        expenseFailureText tr := by
  unfold handleExpenseMessage handlerRun plannedText tryCatch
  cases hp : w.post url text with
  | none => simp [throwNow, msgReply, replies_append, replies]
  | some result =>
    cases hr : expenseReplyText w result with
    | error e => simp [hr, throwNow, msgReply, replies_append, replies]
    | ok t =>
      cases hk : w.replyOk (replies tr).length <;>
        simp [hr, msgReply, replies_append, replies, hk]

theorem handleReportRequest_eq (w : World) (url : String) (tr : List Effect) :
    handleReportRequest w url tr =
      handlerRun w (.get (reportUrl url))
        (plannedText (w.get (reportUrl url)) (reportReplyText w)) reportFailureText tr := by
  unfold handleReportRequest handlerRun plannedText tryCatch
  cases hp : w.get (reportUrl url) with
  | none => simp [throwNow, msgReply, replies_append, replies]
  | some result =>
    cases hr : reportReplyText w result with
    | error e => simp [hr, throwNow, msgReply, replies_append, replies]
    | ok t =>
      cases hk : w.replyOk (replies tr).length <;>
        simp [hr, msgReply, replies_append, replies, hk]

theorem msgReply_trace (w : World) (t : String) (tr : List Effect) :
    (msgReply w t tr).trace = tr ++ [.reply t] := rfl

theorem handlerRun_trace (w : World) (request : Effect) (planned : Option String)
    (fallback : String) (tr : List Effect) :
    ∃ rest, (handlerRun w request planned fallback tr).trace = tr ++ request :: rest ∧
      remoteCalls rest = [] ∧ 1 ≤ (replies rest).length := by
  unfold handlerRun
  cases planned with
  | none => exact ⟨[.reply fallback], by simp, rfl, by simp [replies]⟩
  | some t =>
    cases w.replyOk (replies tr).length
    · exact ⟨[.reply t, .reply fallback], by simp, rfl, by simp [replies]⟩
    · exact ⟨[.reply t], by simp, rfl, by simp [replies]⟩

theorem tryCatch_msgReply_trace (w : World) (body : Task) (t : String) (tr : List Effect) :
    ∃ extra, (tryCatch body (msgReply w t) tr).trace = (body tr).trace ++ extra ∧
      remoteCalls extra = [] := by
  unfold tryCatch
  cases h : (body tr).threw
  · exact ⟨[], by simp [h], rfl⟩
  · exact ⟨[.reply t], by simp [h, msgReply], rfl⟩

theorem startsWith_hash_iff (t : String) :
    startsWith t "#" = true ↔ ∃ rest, t.data = '#' :: rest := by
  unfold startsWith
  cases h : t.data with
  | nil => simp [List.isPrefixOf]
  | cons c cs =>
    simp only [List.isPrefixOf, List.cons.injEq, exists_eq_right', Bool.and_true]
    constructor
    · intro hc
      exact (beq_iff_eq.mp hc).symm
    · intro hc
      exact beq_iff_eq.mpr hc.symm

theorem toLowerCase_hash (ul : UnicodeLower) (t : String) (h : startsWith t "#" = true) :
    ∃ rest, (toLowerCase ul t).data = '#' :: rest := by
  obtain ⟨rest, hr⟩ := (startsWith_hash_iff t).mp h
  refine ⟨lowerFrom ul ['#'] rest, ?_⟩
  simp only [toLowerCase, hr, lowerFrom]
  rfl

/-- A text that starts with the hash sign is no report keyword. -/
theorem not_report_of_hash (ul : UnicodeLower) (t : String) (h : startsWith t "#" = true) :
    ¬ (toLowerCase ul t = "laporan" ∨ toLowerCase ul t = "report") := by
  obtain ⟨rest, hr⟩ := toLowerCase_hash ul t h
  rintro (e | e) <;> · rw [e] at hr; simp at hr

theorem expense_branch (w : World) (url body : String)
    (h : startsWith (trim body) "#" = true) :
    handleMessage w url body =
        tryCatch (handleExpenseMessage w url (trim body)) (msgReply w messageFailureText) ∧
      ∃ rest, (handleMessage w url body []).trace = Effect.post url (trim body) :: rest ∧
        remoteCalls rest = [] := by
  have hEq : handleMessage w url body =
      tryCatch (handleExpenseMessage w url (trim body)) (msgReply w messageFailureText) := by
    simp [handleMessage, h]
  refine ⟨hEq, ?_⟩
  obtain ⟨extra, he, hx⟩ := tryCatch_msgReply_trace w
    (handleExpenseMessage w url (trim body)) messageFailureText []
  obtain ⟨rest, hr, hc, _⟩ := handlerRun_trace w (.post url (trim body))
    (plannedText (w.post url (trim body)) (expenseReplyText w)) expenseFailureText []
  rw [hEq, he, handleExpenseMessage_eq, hr]
  exact ⟨rest ++ extra, by simp, by simp [remoteCalls_append, hc, hx]⟩

theorem report_branch (w : World) (url body : String)
    (h : toLowerCase w.unicodeLower (trim body) = "laporan" ∨
      toLowerCase w.unicodeLower (trim body) = "report") :
    startsWith (trim body) "#" = false ∧
      handleMessage w url body =
        tryCatch (handleReportRequest w url) (msgReply w messageFailureText) ∧
      ∃ rest, (handleMessage w url body []).trace = Effect.get (reportUrl url) :: rest ∧
        remoteCalls rest = [] := by
  have hs : startsWith (trim body) "#" = false := by
    cases hh : startsWith (trim body) "#"
    · rfl
    · exact absurd h (not_report_of_hash w.unicodeLower (trim body) hh)
  have hEq : handleMessage w url body =
      tryCatch (handleReportRequest w url) (msgReply w messageFailureText) := by
    simp [handleMessage, hs, h]
  refine ⟨hs, hEq, ?_⟩
  obtain ⟨extra, he, hx⟩ := tryCatch_msgReply_trace w
    (handleReportRequest w url) messageFailureText []
  obtain ⟨rest, hr, hc, _⟩ := handlerRun_trace w (.get (reportUrl url))
    (plannedText (w.get (reportUrl url)) (reportReplyText w)) reportFailureText []
  rw [hEq, he, handleReportRequest_eq, hr]
  exact ⟨rest ++ extra, by simp, by simp [remoteCalls_append, hc, hx]⟩

/-- C1. When the trimmed body of a message starts with the hash sign,
handleMessage runs handleExpenseMessage with the trimmed body, and the only
request it sends is the POST to the configured address whose payload text is
the whole trimmed body; every later call is a reply. -/
theorem handleMessage_expense_forwards_trimmed_body (w : World) (url body : String)
    (h : startsWith (trim body) "#" = true) :
    handleMessage w url body =
        tryCatch (handleExpenseMessage w url (trim body)) (msgReply w messageFailureText) ∧
      ∃ rest, (handleMessage w url body []).trace = Effect.post url (trim body) :: rest ∧
        remoteCalls rest = [] :=
  expense_branch w url body h

/-- The statement of C1 at concrete sample data, with its hypotheses checked. -/
theorem handleMessage_expense_forwards_trimmed_body_witness :
    startsWith (trim "  #jajan 15000 bakso\n") "#" = true ∧
      (handleMessage sampleWorld sampleUrl "  #jajan 15000 bakso\n" =
        tryCatch (handleExpenseMessage sampleWorld sampleUrl (trim "  #jajan 15000 bakso\n"))
          (msgReply sampleWorld messageFailureText) ∧
      ∃ rest, (handleMessage sampleWorld sampleUrl "  #jajan 15000 bakso\n" []).trace =
          Effect.post sampleUrl (trim "  #jajan 15000 bakso\n") :: rest ∧
        remoteCalls rest = []) :=
  ⟨by decide, handleMessage_expense_forwards_trimmed_body sampleWorld sampleUrl
    "  #jajan 15000 bakso\n" (by decide)⟩

/-- C2. When the lower-cased trimmed body is laporan or report, the body does
not start with the hash sign and handleMessage runs handleReportRequest: the
only request is the GET of the report address. The expense test comes first:
a trimmed body that starts with the hash sign always runs
handleExpenseMessage, whose only request is the POST, so it is never handled
as a report or help request. -/
theorem handleMessage_report_after_expense (w : World) (url body : String) :
    ((toLowerCase w.unicodeLower (trim body) = "laporan" ∨
        toLowerCase w.unicodeLower (trim body) = "report") →
      startsWith (trim body) "#" = false ∧
      handleMessage w url body =
        tryCatch (handleReportRequest w url) (msgReply w messageFailureText) ∧
      ∃ rest, (handleMessage w url body []).trace = Effect.get (reportUrl url) :: rest ∧
        remoteCalls rest = []) ∧
    (startsWith (trim body) "#" = true →
      handleMessage w url body =
        tryCatch (handleExpenseMessage w url (trim body)) (msgReply w messageFailureText) ∧
      ∃ rest, (handleMessage w url body []).trace = Effect.post url (trim body) :: rest ∧
        remoteCalls rest = []) :=
  ⟨report_branch w url body, expense_branch w url body⟩

/-- The statement of C2 at concrete sample data, with its hypotheses checked. -/
theorem handleMessage_report_after_expense_witness :
    ((toLowerCase sampleWorld.unicodeLower (trim " LaPoran ") = "laporan" ∨
        toLowerCase sampleWorld.unicodeLower (trim " LaPoran ") = "report") ∧
      (startsWith (trim " LaPoran ") "#" = false ∧
      handleMessage sampleWorld sampleUrl " LaPoran " =
        tryCatch (handleReportRequest sampleWorld sampleUrl)
          (msgReply sampleWorld messageFailureText) ∧
      ∃ rest, (handleMessage sampleWorld sampleUrl " LaPoran " []).trace =
          Effect.get (reportUrl sampleUrl) :: rest ∧
        remoteCalls rest = [])) ∧
    (startsWith (trim "#laporan") "#" = true ∧
      (handleMessage sampleWorld sampleUrl "#laporan" =
        tryCatch (handleExpenseMessage sampleWorld sampleUrl (trim "#laporan"))
          (msgReply sampleWorld messageFailureText) ∧
      ∃ rest, (handleMessage sampleWorld sampleUrl "#laporan" []).trace =
          Effect.post sampleUrl (trim "#laporan") :: rest ∧
        remoteCalls rest = [])) :=
  ⟨⟨by decide, (handleMessage_report_after_expense sampleWorld sampleUrl " LaPoran ").1
      (by decide)⟩,
    ⟨by decide, (handleMessage_report_after_expense sampleWorld sampleUrl "#laporan").2
      (by decide)⟩⟩

/-- C3. When the trimmed body does not start with the hash sign and is no
report keyword, handleMessage runs sendHelpMessage, so that its first call is
the reply with the help text, if and only if the trimmed body equals help
after lower-casing or is the question mark. -/
theorem handleMessage_help_iff (w : World) (url body : String)
    (h1 : startsWith (trim body) "#" = false)
    (h2 : ¬ (toLowerCase w.unicodeLower (trim body) = "laporan" ∨
      toLowerCase w.unicodeLower (trim body) = "report")) :
    ((toLowerCase w.unicodeLower (trim body) = "help" ∨ trim body = "?") →
      handleMessage w url body =
        tryCatch (sendHelpMessage w) (msgReply w messageFailureText)) ∧
    ((handleMessage w url body []).trace.head? = some (Effect.reply helpText) ↔
      (toLowerCase w.unicodeLower (trim body) = "help" ∨ trim body = "?")) := by
  constructor
  · intro h3
    simp [handleMessage, h1, h2, h3]
  · by_cases h3 : toLowerCase w.unicodeLower (trim body) = "help" ∨ trim body = "?"
    · have hEq : handleMessage w url body =
          tryCatch (sendHelpMessage w) (msgReply w messageFailureText) := by
        simp [handleMessage, h1, h2, h3]
      simp only [h3, iff_true]
      rw [hEq]
      unfold tryCatch sendHelpMessage
      cases hk : w.replyOk (replies []).length <;> simp [hk, msgReply]
    · have hEq : handleMessage w url body = tryCatch skip (msgReply w messageFailureText) := by
        simp [handleMessage, h1, h2, h3]
      simp only [h3, iff_false]
      rw [hEq]
      simp [tryCatch, skip]

/-- The statement of C3 at concrete sample data, with its hypotheses checked. -/
theorem handleMessage_help_iff_witness :
    (startsWith (trim " HeLP ") "#" = false ∧
      ¬ (toLowerCase sampleWorld.unicodeLower (trim " HeLP ") = "laporan" ∨
        toLowerCase sampleWorld.unicodeLower (trim " HeLP ") = "report")) ∧
    (((toLowerCase sampleWorld.unicodeLower (trim " HeLP ") = "help" ∨ trim " HeLP " = "?") →
      handleMessage sampleWorld sampleUrl " HeLP " =
        tryCatch (sendHelpMessage sampleWorld) (msgReply sampleWorld messageFailureText)) ∧
    ((handleMessage sampleWorld sampleUrl " HeLP " []).trace.head? =
        some (Effect.reply helpText) ↔
      (toLowerCase sampleWorld.unicodeLower (trim " HeLP ") = "help" ∨ trim " HeLP " = "?"))) ∧
    handleMessage sampleWorld sampleUrl " HeLP " [] =
      { trace := [.reply helpText], threw := false } :=
  ⟨⟨by decide, by decide⟩,
    handleMessage_help_iff sampleWorld sampleUrl " HeLP " (by decide) (by decide),
    by decide⟩

/-- C4. When the trimmed body does not start with the hash sign, is neither
laporan nor report after lower-casing, and is neither help after lower-casing
nor the question mark, handleMessage makes no call at all, neither a reply nor
a request, and settles without throwing. -/
theorem handleMessage_ignores_other_text (w : World) (url body : String)
    (h1 : startsWith (trim body) "#" = false)
    (h2 : ¬ (toLowerCase w.unicodeLower (trim body) = "laporan" ∨
      toLowerCase w.unicodeLower (trim body) = "report"))
    (h3 : ¬ (toLowerCase w.unicodeLower (trim body) = "help" ∨ trim body = "?")) :
    handleMessage w url body [] = { trace := [], threw := false } := by
  simp [handleMessage, h1, h2, h3, tryCatch, skip]

/-- The statement of C4 at concrete sample data, with its hypotheses checked. -/
theorem handleMessage_ignores_other_text_witness :
    (startsWith (trim "halo bot") "#" = false ∧
      ¬ (toLowerCase sampleWorld.unicodeLower (trim "halo bot") = "laporan" ∨
        toLowerCase sampleWorld.unicodeLower (trim "halo bot") = "report") ∧
      ¬ (toLowerCase sampleWorld.unicodeLower (trim "halo bot") = "help" ∨
        trim "halo bot" = "?")) ∧
    handleMessage sampleWorld sampleUrl "halo bot" [] = { trace := [], threw := false } :=
  ⟨⟨by decide, by decide, by decide⟩,
    handleMessage_ignores_other_text sampleWorld sampleUrl "halo bot"
      (by decide) (by decide) (by decide)⟩

theorem attempts_length_le (ok : Nat → Bool) : ∀ (l : List String) (k : Nat),
    (attempts ok k l).length ≤ l.length := by
  intro l
  induction l with
  | nil => intro k; simp [attempts]
  | cons t rest ih =>
    intro k
    cases hk : ok k
    · simpa [attempts, hk] using ih (k + 1)
    · simp [attempts, hk]

theorem attempts_first_delivered (ok : Nat → Bool) (k : Nat) (l : List String)
    (hk : ok k = true) (hl : 1 ≤ l.length) :
    (attempts ok k l).length = 1 ∧ allRejected ok k l = false := by
  cases l with
  | nil => simp at hl
  | cons t rest => simp [attempts, allRejected, hk]

theorem attempts_first_rejected (ok : Nat → Bool) (k : Nat) (l : List String)
    (hk : ok k = false) (hl : 2 ≤ l.length) :
    2 ≤ (attempts ok k l).length ∧ (attempts ok k l).take 2 = l.take 2 := by
  match l, hl with
  | t :: u :: rest, _ =>
    cases hk1 : ok (k + 1) <;> simp [attempts, hk, hk1]

theorem guarded_handler_sequence (w : World) (req : Effect) (planned : Option String)
    (fb mf : String) (hr : ∀ l, replies (req :: l) = replies l) :
    replies (tryCatch (handlerRun w req planned fb) (msgReply w mf) []).trace =
        attempts w.replyOk 0 (planned.toList ++ [fb, mf]) ∧
      (tryCatch (handlerRun w req planned fb) (msgReply w mf) []).threw =
        allRejected w.replyOk 0 (planned.toList ++ [fb, mf]) := by
  cases planned <;> cases h0 : w.replyOk 0 <;> cases h1 : w.replyOk 1 <;>
    cases h2 : w.replyOk 2 <;>
    simp [tryCatch, handlerRun, msgReply, replies, hr, h0, h1, h2, attempts, allRejected]

theorem guarded_help_sequence (w : World) (mf : String) :
    replies (tryCatch (sendHelpMessage w) (msgReply w mf) []).trace =
        attempts w.replyOk 0 [helpText, mf] ∧
      (tryCatch (sendHelpMessage w) (msgReply w mf) []).threw =
        allRejected w.replyOk 0 [helpText, mf] := by
  cases h0 : w.replyOk 0 <;> cases h1 : w.replyOk 1 <;>
    simp [tryCatch, sendHelpMessage, msgReply, replies, h0, h1, attempts, allRejected]

theorem replyPlan_length (w : World) (url body : String) (h : isHandled w body) :
    2 ≤ (replyPlan w url body).length ∧ (replyPlan w url body).length ≤ 3 := by
  unfold replyPlan
  by_cases h1 : startsWith (trim body) "#" = true
  · simp only [h1, if_true]
    cases plannedText (w.post url (trim body)) (expenseReplyText w) <;> simp
  · by_cases h2 : toLowerCase w.unicodeLower (trim body) = "laporan" ∨
        toLowerCase w.unicodeLower (trim body) = "report"
    · simp only [h1, h2, if_true, if_false]
      cases plannedText (w.get (reportUrl url)) (reportReplyText w) <;> simp
    · have h3 : toLowerCase w.unicodeLower (trim body) = "help" ∨ trim body = "?" := by
        rcases h with h | h | h
        · exact absurd h h1
        · exact absurd h h2
        · exact h
      simp [h1, h2, h3]

theorem handleMessage_follows_plan (w : World) (url body : String) (h : isHandled w body) :
    replies (handleMessage w url body []).trace =
        attempts w.replyOk 0 (replyPlan w url body) ∧
      (handleMessage w url body []).threw = allRejected w.replyOk 0 (replyPlan w url body) := by
  by_cases h1 : startsWith (trim body) "#" = true
  · rw [(expense_branch w url body h1).1]
    have := guarded_handler_sequence w (.post url (trim body))
      (plannedText (w.post url (trim body)) (expenseReplyText w)) expenseFailureText
      messageFailureText (fun _ => rfl)
    unfold tryCatch at this ⊢
    rw [handleExpenseMessage_eq]
    simpa [replyPlan, h1] using this
  · by_cases h2 : toLowerCase w.unicodeLower (trim body) = "laporan" ∨
        toLowerCase w.unicodeLower (trim body) = "report"
    · rw [(report_branch w url body h2).2.1]
      have := guarded_handler_sequence w (.get (reportUrl url))
        (plannedText (w.get (reportUrl url)) (reportReplyText w)) reportFailureText
        messageFailureText (fun _ => rfl)
      unfold tryCatch at this ⊢
      rw [handleReportRequest_eq]
      simpa [replyPlan, h1, h2] using this
    · have h3 : toLowerCase w.unicodeLower (trim body) = "help" ∨ trim body = "?" := by
        rcases h with h | h | h
        · exact absurd h h1
        · exact absurd h h2
        · exact h
      have hEq : handleMessage w url body =
          tryCatch (sendHelpMessage w) (msgReply w messageFailureText) := by
        simp [handleMessage, h1, h2, h3]
      rw [hEq]
      simpa [replyPlan, h1, h2, h3] using guarded_help_sequence w messageFailureText

theorem handleMessage_one_request (w : World) (url body : String) :
    (remoteCalls (handleMessage w url body []).trace).length ≤ 1 := by
  by_cases h1 : startsWith (trim body) "#" = true
  · obtain ⟨rest, hr, hc⟩ := (expense_branch w url body h1).2
    simp [hr, remoteCalls, hc]
  · by_cases h2 : toLowerCase w.unicodeLower (trim body) = "laporan" ∨
        toLowerCase w.unicodeLower (trim body) = "report"
    · obtain ⟨rest, hr, hc⟩ := (report_branch w url body h2).2.2
      simp [hr, remoteCalls, hc]
    · by_cases h3 : toLowerCase w.unicodeLower (trim body) = "help" ∨ trim body = "?"
      · have hEq : handleMessage w url body =
            tryCatch (sendHelpMessage w) (msgReply w messageFailureText) := by
          simp [handleMessage, h1, h2, h3]
        rw [hEq]
        cases h0 : w.replyOk 0 <;>
          simp [tryCatch, sendHelpMessage, msgReply, replies, remoteCalls, h0]
      · have hEq : handleMessage w url body = tryCatch skip (msgReply w messageFailureText) := by
          simp [handleMessage, h1, h2, h3]
        rw [hEq]
        simp [tryCatch, skip, remoteCalls]

/-- C5 (as the code behaves). For every message that is not ignored,
handleMessage tries the texts of its reply plan in order and stops at the
first call of msg.reply that is delivered. The plan has two or three texts:
on the expense and report paths the rendered reply (absent when the request
rejects or the rendering throws), the failure text of the handler and the
failure text of handleMessage; on the help path the help text and the
failure text of handleMessage. So exactly one call is made, and nothing is
thrown, when the first call is delivered; when the first call is rejected a
second call is made, with the next text of the plan; at most three calls are
made; and handleMessage throws exactly when every call of the plan was made
and rejected. At most one request is sent. -/
theorem handleMessage_reply_sequence (w : World) (url body : String)
    (h : isHandled w body) :
    replies (handleMessage w url body []).trace =
        attempts w.replyOk 0 (replyPlan w url body) ∧
      (handleMessage w url body []).threw = allRejected w.replyOk 0 (replyPlan w url body) ∧
      2 ≤ (replyPlan w url body).length ∧ (replyPlan w url body).length ≤ 3 ∧
      (w.replyOk 0 = true →
        (replies (handleMessage w url body []).trace).length = 1 ∧
        (handleMessage w url body []).threw = false) ∧
      (w.replyOk 0 = false →
        2 ≤ (replies (handleMessage w url body []).trace).length ∧
        (replies (handleMessage w url body []).trace).take 2 =
          (replyPlan w url body).take 2) ∧
      (replies (handleMessage w url body []).trace).length ≤ 3 ∧
      (remoteCalls (handleMessage w url body []).trace).length ≤ 1 := by
  obtain ⟨hrep, hthrew⟩ := handleMessage_follows_plan w url body h
  obtain ⟨hlo, hhi⟩ := replyPlan_length w url body h
  refine ⟨hrep, hthrew, hlo, hhi, ?_, ?_, ?_, handleMessage_one_request w url body⟩
  · intro h0
    rw [hrep, hthrew]
    exact attempts_first_delivered w.replyOk 0 _ h0 (by omega)
  · intro h0
    rw [hrep]
    exact attempts_first_rejected w.replyOk 0 _ h0 hlo
  · rw [hrep]
    exact le_trans (attempts_length_le w.replyOk _ 0) hhi

/-- The statement of C5 at concrete sample data, with its hypothesis checked:
the first reply is rejected and the second is delivered. -/
theorem handleMessage_reply_sequence_witness :
    isHandled firstReplyLostWorld "#jajan 15000 bakso" ∧
      (replies (handleMessage firstReplyLostWorld sampleUrl "#jajan 15000 bakso" []).trace =
        attempts firstReplyLostWorld.replyOk 0
          (replyPlan firstReplyLostWorld sampleUrl "#jajan 15000 bakso") ∧
      (handleMessage firstReplyLostWorld sampleUrl "#jajan 15000 bakso" []).threw =
        allRejected firstReplyLostWorld.replyOk 0
          (replyPlan firstReplyLostWorld sampleUrl "#jajan 15000 bakso") ∧
      2 ≤ (replyPlan firstReplyLostWorld sampleUrl "#jajan 15000 bakso").length ∧
      (replyPlan firstReplyLostWorld sampleUrl "#jajan 15000 bakso").length ≤ 3 ∧
      (firstReplyLostWorld.replyOk 0 = true →
        (replies (handleMessage firstReplyLostWorld sampleUrl "#jajan 15000 bakso"
          []).trace).length = 1 ∧
        (handleMessage firstReplyLostWorld sampleUrl "#jajan 15000 bakso" []).threw = false) ∧
      (firstReplyLostWorld.replyOk 0 = false →
        2 ≤ (replies (handleMessage firstReplyLostWorld sampleUrl "#jajan 15000 bakso"
          []).trace).length ∧
        (replies (handleMessage firstReplyLostWorld sampleUrl "#jajan 15000 bakso"
          []).trace).take 2 =
          (replyPlan firstReplyLostWorld sampleUrl "#jajan 15000 bakso").take 2) ∧
      (replies (handleMessage firstReplyLostWorld sampleUrl "#jajan 15000 bakso"
        []).trace).length ≤ 3 ∧
      (remoteCalls (handleMessage firstReplyLostWorld sampleUrl "#jajan 15000 bakso"
        []).trace).length ≤ 1) :=
  ⟨by decide, handleMessage_reply_sequence firstReplyLostWorld sampleUrl
    "#jajan 15000 bakso" (by decide)⟩

/-- C5 (the claim as written fails). The expense endpoint answers with
success and the chat session rejects the first reply call: the message is
not ignored, and msg.reply is called twice, first with the confirmation and
then, from the catch block of handleExpenseMessage, with the failure text.
When the chat session rejects every reply call on the help path, msg.reply is
called twice and handleMessage throws. -/
theorem handleMessage_replies_twice_when_first_reply_rejected :
    isHandled firstReplyLostWorld "#jajan 15000 bakso" ∧
      replies (handleMessage firstReplyLostWorld sampleUrl "#jajan 15000 bakso" []).trace =
        ["✅ *Data berhasil disimpan!*\n\n📝 *Kategori:* jajan\n💰 *Jumlah:* Rp 15.000\n" ++
          "📋 *Keterangan:* bakso\n🕒 *Waktu:* 2024-01-01 10:00",
         "❌ Gagal menyimpan data. Pastikan server berjalan."] ∧
      (replies (handleMessage firstReplyLostWorld sampleUrl "#jajan 15000 bakso" []).trace).length
        ≠ 1 ∧
      isHandled allRepliesLostWorld "help" ∧
      handleMessage allRepliesLostWorld sampleUrl "help" [] =
        { trace := [.reply helpText, .reply messageFailureText], threw := true } := by
  refine ⟨by decide, by decide, by decide, by decide, by decide⟩

theorem digitChar_isDigit (d : Nat) (h : d < 10) : (Nat.digitChar d).isDigit = true := by
  interval_cases d <;> decide

theorem toDigitsCore_isDigit (fuel : Nat) : ∀ (n : Nat) (ds : List Char),
    (∀ c ∈ ds, c.isDigit = true) → ∀ c ∈ Nat.toDigitsCore 10 fuel n ds, c.isDigit = true := by
  induction fuel with
  | zero => intro n ds h; simpa [Nat.toDigitsCore] using h
  | succ f ih =>
    intro n ds h
    have hd : ∀ c ∈ Nat.digitChar (n % 10) :: ds, c.isDigit = true := by
      intro c hc
      rcases List.mem_cons.mp hc with rfl | hc
      · exact digitChar_isDigit _ (Nat.mod_lt _ (by decide))
      · exact h c hc
    simp only [Nat.toDigitsCore]
    split
    · exact hd
    · exact ih _ _ hd

theorem toDigits_isDigit (n : Nat) : ∀ c ∈ Nat.toDigits 10 n, c.isDigit = true :=
  toDigitsCore_isDigit _ _ _ (by simp)

theorem toDigitsCore_ne_nil (fuel : Nat) : ∀ (n : Nat) (ds : List Char),
    Nat.toDigitsCore 10 (fuel + 1) n ds ≠ [] := by
  induction fuel with
  | zero => intro n ds; simp [Nat.toDigitsCore]
  | succ f ih =>
    intro n ds
    rw [Nat.toDigitsCore]
    split
    · simp
    · exact ih _ _

theorem groupRev_small (l : List Char)
    (hl : ∀ (a b c : Char) (rest : List Char), l = a :: b :: c :: rest → False) :
    groupRev l = l ∧ l.length < 3 := by
  match l, hl with
  | [], _ => exact ⟨rfl, by simp⟩
  | [_], _ => exact ⟨rfl, by simp⟩
  | [_, _], _ => exact ⟨rfl, by simp⟩
  | a :: b :: c :: rest, hl => exact (hl a b c rest rfl).elim

theorem groupRev_filter (l : List Char) (h : ∀ c ∈ l, c ≠ '.') :
    (groupRev l).filter (fun c => c != '.') = l := by
  induction l using groupRev.induct with
  | case1 a b c =>
    simp only [groupRev, if_true]
    rw [List.filter_eq_self]; intro x hx; simpa using h x hx
  | case2 a b c rest hr ih =>
    simp only [groupRev, hr, if_false]
    have hrest := ih (fun x hx => h x (by simp [hx]))
    have ha := h a (by simp)
    have hb := h b (by simp)
    have hc := h c (by simp)
    simp [List.filter_cons, ha, hb, hc, hrest]
  | case3 l hl =>
    rw [(groupRev_small l hl).1]
    rw [List.filter_eq_self]; intro c hc; simpa using h c hc

theorem groupRev_separators (l : List Char) (h : ∀ c ∈ l, c ≠ '.') :
    ∀ i, i < (groupRev l).length → ((groupRev l)[i]? = some '.' ↔ i % 4 = 3) := by
  induction l using groupRev.induct with
  | case1 a b c =>
    intro i hi
    have ha := h a (by simp)
    have hb := h b (by simp)
    have hc := h c (by simp)
    simp only [groupRev, if_true, List.length_cons, List.length_nil] at hi ⊢
    have : i = 0 ∨ i = 1 ∨ i = 2 := by omega
    rcases this with rfl | rfl | rfl <;> simp [ha, hb, hc]
  | case2 a b c rest hr ih =>
    intro i hi
    have ha := h a (by simp)
    have hb := h b (by simp)
    have hc := h c (by simp)
    have hrest := ih (fun x hx => h x (by simp [hx]))
    simp only [groupRev, hr, if_false, List.length_cons] at hi ⊢
    match i, hi with
    | 0, _ => simp [ha]
    | 1, _ => simp [hb]
    | 2, _ => simp [hc]
    | 3, _ => simp
    | j + 4, hj =>
      have := hrest j (by omega)
      simp only [List.getElem?_cons_succ]
      rw [this]
      omega
  | case3 l hl =>
    intro i hi
    obtain ⟨he, hlen⟩ := groupRev_small l hl
    rw [he] at hi ⊢
    have hne : l[i]? ≠ some '.' := by
      intro hx
      exact h '.' (List.getElem?_mem hx) rfl
    constructor
    · intro hx; exact absurd hx hne
    · intro hx; omega

theorem groupRev_ne_nil (l : List Char) (h : l ≠ []) : groupRev l ≠ [] := by
  cases l with
  | nil => exact absurd rfl h
  | cons x xs =>
    rw [groupRev.eq_def]
    split
    · split <;> simp
    · simp

theorem groupRev_getLast (l : List Char) (h : ∀ c ∈ l, c ≠ '.') :
    (groupRev l).getLast? ≠ some '.' := by
  induction l using groupRev.induct with
  | case1 a b c =>
    simp only [groupRev, if_true]
    simpa using h c (by simp)
  | case2 a b c rest hr ih =>
    have hrest := ih (fun x hx => h x (by simp [hx]))
    simp only [groupRev, hr, if_false]
    cases hg : groupRev rest with
    | nil => exact absurd hg (groupRev_ne_nil rest hr)
    | cons y ys =>
      rw [hg] at hrest
      simpa [List.getLast?_cons_cons] using hrest
  | case3 l hl =>
    rw [(groupRev_small l hl).1]
    intro hx
    exact h '.' (List.mem_of_getLast?_eq_some hx) rfl

theorem digitChar_value (d : Nat) (h : d < 10) : (Nat.digitChar d).toNat - 48 = d := by
  interval_cases d <;> decide

theorem decimalValue_toDigitsCore (fuel : Nat) : ∀ (n : Nat) (ds : List Char), n < fuel →
    (Nat.toDigitsCore 10 fuel n ds).foldl (fun acc c => 10 * acc + (c.toNat - 48)) 0 =
      ds.foldl (fun acc c => 10 * acc + (c.toNat - 48)) n := by
  induction fuel with
  | zero => intro n ds h; omega
  | succ f ih =>
    intro n ds h
    have hv := digitChar_value (n % 10) (Nat.mod_lt _ (by decide))
    simp only [Nat.toDigitsCore]
    split
    · rename_i h0
      simp only [List.foldl_cons, hv]
      congr 1
      omega
    · rename_i h0
      rw [ih (n / 10) _ (by omega)]
      simp only [List.foldl_cons, hv]
      congr 1
      omega

theorem decimalValue_toDigits (n : Nat) : decimalValue (Nat.toDigits 10 n) = n := by
  unfold decimalValue Nat.toDigits
  rw [decimalValue_toDigitsCore (n + 1) n [] (by omega)]
  rfl

theorem toDigits_no_stop (n : Nat) : ∀ c ∈ Nat.toDigits 10 n, c ≠ '.' := by
  intro c hc hdot
  have := toDigits_isDigit n c hc
  rw [hdot] at this
  exact absurd this (by decide)

theorem groupedText_grouped (n : Nat) : GroupedDecimal n (groupedText n) := by
  have hno : ∀ c ∈ (Nat.toDigits 10 n).reverse, c ≠ '.' := fun c hc =>
    toDigits_no_stop n c (List.mem_reverse.mp hc)
  have hfilter : ((groupRev (Nat.toDigits 10 n).reverse).reverse.filter fun c => c != '.') =
      Nat.toDigits 10 n := by
    rw [List.filter_reverse, groupRev_filter _ hno, List.reverse_reverse]
  refine ⟨?_, hfilter, ?_, ?_, ?_⟩
  · intro c hc
    by_cases hdot : c = '.'
    · exact Or.inr hdot
    · left
      apply toDigits_isDigit n
      rw [← hfilter]
      exact List.mem_filter.mpr ⟨hc, by simpa using hdot⟩
  · show decimalValue ((groupRev (Nat.toDigits 10 n).reverse).reverse.filter _) = n
    rw [hfilter, decimalValue_toDigits]
  · intro i hi
    show (groupRev (Nat.toDigits 10 n).reverse).reverse.reverse[i]? = some '.' ↔ _
    rw [List.reverse_reverse]
    exact groupRev_separators _ hno i (by simpa [groupedText] using hi)
  · show (groupRev (Nat.toDigits 10 n).reverse).reverse.head? ≠ some '.'
    rw [List.head?_reverse]
    exact groupRev_getLast _ hno

theorem numberToLocaleString_safe (w : World) (n : Nat) (h : n < safeBound) :
    numberToLocaleString w n = groupedText n := by
  simp [numberToLocaleString, h]

theorem numberToString_safe (w : World) (n : Nat) (h : n < safeBound) :
    numberToString w n = decimalText n := by
  simp [numberToString, h]

theorem handlerRun_planned (w : World) (request : Effect) (t fallback : String) :
    handlerRun w request (some t) fallback [] =
      if w.replyOk 0 = true then
        { trace := [request, .reply t], threw := false }
      else
        { trace := [request, .reply t, .reply fallback], threw := !w.replyOk 1 } := by
  simp [handlerRun, replies]

theorem handlerRun_unplanned (w : World) (request : Effect) (fallback : String) :
    handlerRun w request none fallback [] =
      { trace := [request, .reply fallback], threw := !w.replyOk 0 } := by
  simp [handlerRun, replies]

theorem expenseReplyText_success (w : World) (result data : JSVal)
    (kategori keterangan timestamp : String) (jumlah : Nat)
    (hstatus : getProp result "status" = .ok (.str "success"))
    (hdata : getProp result "data" = .ok data)
    (hk : getProp data "kategori" = .ok (.str kategori))
    (hj : getProp data "jumlah" = .ok (.num jumlah))
    (hn : getProp data "keterangan" = .ok (.str keterangan))
    (ht : getProp data "timestamp" = .ok (.str timestamp))
    (hsafe : jumlah < safeBound) :
    expenseReplyText w result = .ok (String.intercalate "\n"
      ["✅ *Data berhasil disimpan!*", "",
       "📝 *Kategori:* " ++ kategori,
       "💰 *Jumlah:* Rp " ++ groupedText jumlah,
       "📋 *Keterangan:* " ++ keterangan,
       "🕒 *Waktu:* " ++ timestamp]) := by
  have hlit : "✅ *Data berhasil disimpan!*\n\n" = "✅ *Data berhasil disimpan!*" ++ "\n" ++ "" ++ "\n" := by
    decide
  simp only [expenseReplyText, hstatus, hdata, hk, hj, hn, ht, strictEqStr, toStr, toLocaleString,
    bind, Except.bind, pure, Except.pure, if_true, decide_True, String.intercalate,
    String.intercalate.go, hlit, numberToLocaleString_safe w jumlah hsafe]
  simp only [String.append_assoc]

/-- C6 (as the code behaves). When the expense endpoint answers with status
success and data holding the texts kategori, keterangan and timestamp and a
non-negative integer jumlah below 2^53, the rendering does not throw and the
first reply call of handleExpenseMessage carries six lines: the heading, an
empty line, and the category, the amount, the note and the timestamp in that
order, each after its label on a line of its own. The amount is written in
decimal with a full stop between groups of three digits, so that 15000 is
written 15.000. When this reply call is delivered the handler makes no other
call and does not throw; when it is rejected the catch block replies with the
failure text, and the handler throws exactly when that call is rejected
too. -/
theorem handleExpenseMessage_success_reply (w : World) (url text : String)
    (result data : JSVal) (kategori keterangan timestamp : String) (jumlah : Nat)
    (hpost : w.post url text = some result)
    (hstatus : getProp result "status" = .ok (.str "success"))
    (hdata : getProp result "data" = .ok data)
    (hk : getProp data "kategori" = .ok (.str kategori))
    (hj : getProp data "jumlah" = .ok (.num jumlah))
    (hn : getProp data "keterangan" = .ok (.str keterangan))
    (ht : getProp data "timestamp" = .ok (.str timestamp))
    (hsafe : jumlah < safeBound) :
    expenseReplyText w result = .ok (String.intercalate "\n"
        ["✅ *Data berhasil disimpan!*", "",
         "📝 *Kategori:* " ++ kategori,
         "💰 *Jumlah:* Rp " ++ groupedText jumlah,
         "📋 *Keterangan:* " ++ keterangan,
         "🕒 *Waktu:* " ++ timestamp]) ∧
      handleExpenseMessage w url text [] =
        (if w.replyOk 0 = true then
          { trace := [.post url text, .reply (String.intercalate "\n"
              ["✅ *Data berhasil disimpan!*", "",
               "📝 *Kategori:* " ++ kategori,
               "💰 *Jumlah:* Rp " ++ groupedText jumlah,
               "📋 *Keterangan:* " ++ keterangan,
               "🕒 *Waktu:* " ++ timestamp])],
            threw := false }
        else
          { trace := [.post url text, .reply (String.intercalate "\n"
              ["✅ *Data berhasil disimpan!*", "",
               "📝 *Kategori:* " ++ kategori,
               "💰 *Jumlah:* Rp " ++ groupedText jumlah,
               "📋 *Keterangan:* " ++ keterangan,
               "🕒 *Waktu:* " ++ timestamp]), .reply expenseFailureText],
            threw := !w.replyOk 1 }) ∧
      numberToLocaleString w jumlah = groupedText jumlah ∧
      GroupedDecimal jumlah (groupedText jumlah) ∧
      numberToLocaleString w 15000 = "15.000" := by
  have htext := expenseReplyText_success w result data kategori keterangan timestamp jumlah
    hstatus hdata hk hj hn ht hsafe
  refine ⟨htext, ?_, numberToLocaleString_safe w jumlah hsafe, groupedText_grouped jumlah, ?_⟩
  · rw [handleExpenseMessage_eq]
    simp only [plannedText, hpost, htext]
    exact handlerRun_planned w _ _ _
  · rw [numberToLocaleString_safe w 15000 (by decide)]
    decide

/-- The statement of C6 at the sample answer, with its hypotheses checked. -/
theorem handleExpenseMessage_success_reply_witness :
    (sampleWorld.post sampleUrl "#jajan 15000 bakso" =
        some (.obj [("status", .str "success"), ("data", sampleExpenseData)]) ∧
      15000 < safeBound) ∧
    (expenseReplyText sampleWorld
        (.obj [("status", .str "success"), ("data", sampleExpenseData)]) =
      .ok (String.intercalate "\n"
        ["✅ *Data berhasil disimpan!*", "",
         "📝 *Kategori:* " ++ "jajan",
         "💰 *Jumlah:* Rp " ++ groupedText 15000,
         "📋 *Keterangan:* " ++ "bakso",
         "🕒 *Waktu:* " ++ "2024-01-01 10:00"]) ∧
      handleExpenseMessage sampleWorld sampleUrl "#jajan 15000 bakso" [] =
        (if sampleWorld.replyOk 0 = true then
          { trace := [.post sampleUrl "#jajan 15000 bakso", .reply (String.intercalate "\n"
              ["✅ *Data berhasil disimpan!*", "",
               "📝 *Kategori:* " ++ "jajan",
               "💰 *Jumlah:* Rp " ++ groupedText 15000,
               "📋 *Keterangan:* " ++ "bakso",
               "🕒 *Waktu:* " ++ "2024-01-01 10:00"])],
            threw := false }
        else
          { trace := [.post sampleUrl "#jajan 15000 bakso", .reply (String.intercalate "\n"
              ["✅ *Data berhasil disimpan!*", "",
               "📝 *Kategori:* " ++ "jajan",
               "💰 *Jumlah:* Rp " ++ groupedText 15000,
               "📋 *Keterangan:* " ++ "bakso",
               "🕒 *Waktu:* " ++ "2024-01-01 10:00"]), .reply expenseFailureText],
            threw := !sampleWorld.replyOk 1 }) ∧
      numberToLocaleString sampleWorld 15000 = groupedText 15000 ∧
      GroupedDecimal 15000 (groupedText 15000) ∧
      numberToLocaleString sampleWorld 15000 = "15.000") :=
  ⟨⟨rfl, by decide⟩,
    handleExpenseMessage_success_reply sampleWorld sampleUrl "#jajan 15000 bakso"
      (.obj [("status", .str "success"), ("data", sampleExpenseData)]) sampleExpenseData
      "jajan" "bakso" "2024-01-01 10:00" 15000 rfl rfl rfl rfl rfl rfl rfl (by decide)⟩

/-- C6 (the claim as written fails). The expense endpoint answers with the
well-formed success response of the sample data and the chat session rejects
every reply call: handleExpenseMessage calls msg.reply with the confirmation,
then with the failure text from its catch block, and throws. -/
theorem handleExpenseMessage_throws_when_replies_rejected :
    allRepliesLostWorld.post sampleUrl "#jajan 15000 bakso" =
        some (.obj [("status", .str "success"), ("data", sampleExpenseData)]) ∧
      handleExpenseMessage allRepliesLostWorld sampleUrl "#jajan 15000 bakso" [] =
        { trace := [.post sampleUrl "#jajan 15000 bakso",
            .reply ("✅ *Data berhasil disimpan!*\n\n📝 *Kategori:* jajan\n" ++
              "💰 *Jumlah:* Rp 15.000\n📋 *Keterangan:* bakso\n🕒 *Waktu:* 2024-01-01 10:00"),
            .reply "❌ Gagal menyimpan data. Pastikan server berjalan."],
          threw := true } := by
  refine ⟨rfl, by decide⟩

theorem expenseReplyText_no_data (w : World) (result : JSVal)
    (hstatus : getProp result "status" = .ok (.str "success"))
    (hdata : getProp result "data" = .ok .undefined ∨ getProp result "data" = .ok .null) :
    expenseReplyText w result = .error () := by
  rcases hdata with hd | hd <;>
    · simp only [expenseReplyText, hstatus, hd, strictEqStr, bind, Except.bind, decide_True,
        if_true]
      rfl

theorem expenseReplyText_no_jumlah (w : World) (result data : JSVal)
    (hstatus : getProp result "status" = .ok (.str "success"))
    (hdata : getProp result "data" = .ok data)
    (hj : getProp data "jumlah" = .ok .undefined ∨ getProp data "jumlah" = .ok .null) :
    expenseReplyText w result = .error () := by
  simp only [expenseReplyText, hstatus, hdata, strictEqStr, bind, Except.bind, decide_True,
    if_true]
  cases hkat : getProp data "kategori" with
  | error e => rfl
  | ok kv =>
    cases hks : toStr w kv with
    | error e => simp [hks]
    | ok ks =>
      rcases hj with hj | hj <;> simp [hks, hj, toLocaleString]

theorem expenseReplyText_no_status (w : World) (result : JSVal)
    (hstatus : getProp result "status" = .ok .undefined)
    (hmessage : getProp result "message" = .ok .undefined) :
    expenseReplyText w result =
      .ok "❌ *Error:* undefined\n\n📖 Format: #kategori jumlah keterangan" := by
  simp only [expenseReplyText, hstatus, hmessage, strictEqStr, bind, Except.bind, toStr, pure,
    Except.pure]
  rfl

/-- C10 (as the code behaves). handleExpenseMessage sends the POST and then
calls msg.reply once, with the fixed failure text, and returns normally
exactly when this reply call is delivered, in each of these cases: the POST
rejects; the response body is null or undefined; the body has status success
and its data is missing or null; the body has status success and its data has
a missing or null jumlah; in general, whenever the rendering of the body
throws. A body that is a string, as axios delivers a text that is no JSON,
and a body with neither status nor message, are not answered with the
failure text: the first reply is the error line with the message undefined
and the format reminder, the handler returns normally when it is delivered,
and only when it is rejected does the failure text follow. -/
theorem handleExpenseMessage_failure_reply (w : World) (url text : String) :
    (w.post url text = none →
      handleExpenseMessage w url text [] =
        { trace := [.post url text, .reply expenseFailureText], threw := !w.replyOk 0 }) ∧
    (w.post url text = some .null ∨ w.post url text = some .undefined →
      handleExpenseMessage w url text [] =
        { trace := [.post url text, .reply expenseFailureText], threw := !w.replyOk 0 }) ∧
    (∀ result, w.post url text = some result →
      getProp result "status" = .ok (.str "success") →
      (getProp result "data" = .ok .undefined ∨ getProp result "data" = .ok .null) →
      handleExpenseMessage w url text [] =
        { trace := [.post url text, .reply expenseFailureText], threw := !w.replyOk 0 }) ∧
    (∀ result data, w.post url text = some result →
      getProp result "status" = .ok (.str "success") →
      getProp result "data" = .ok data →
      (getProp data "jumlah" = .ok .undefined ∨ getProp data "jumlah" = .ok .null) →
      handleExpenseMessage w url text [] =
        { trace := [.post url text, .reply expenseFailureText], threw := !w.replyOk 0 }) ∧
    (∀ result, w.post url text = some result → expenseReplyText w result = .error () →
      handleExpenseMessage w url text [] =
        { trace := [.post url text, .reply expenseFailureText], threw := !w.replyOk 0 }) ∧
    (∀ result, w.post url text = some result →
      ((∃ s, result = .str s) ∨
        (getProp result "status" = .ok .undefined ∧
          getProp result "message" = .ok .undefined)) →
      handleExpenseMessage w url text [] =
        (if w.replyOk 0 = true then
          { trace := [.post url text,
              .reply "❌ *Error:* undefined\n\n📖 Format: #kategori jumlah keterangan"],
            threw := false }
        else
          { trace := [.post url text,
              .reply "❌ *Error:* undefined\n\n📖 Format: #kategori jumlah keterangan",
              .reply expenseFailureText],
            threw := !w.replyOk 1 })) := by
  have hfail : ∀ result, w.post url text = some result →
      expenseReplyText w result = .error () →
      handleExpenseMessage w url text [] =
        { trace := [.post url text, .reply expenseFailureText], threw := !w.replyOk 0 } := by
    intro result hp hr
    rw [handleExpenseMessage_eq]
    simp only [plannedText, hp, hr]
    exact handlerRun_unplanned w _ _
  refine ⟨?_, ?_, ?_, ?_, hfail, ?_⟩
  · intro hp
    rw [handleExpenseMessage_eq]
    simp only [plannedText, hp]
    exact handlerRun_unplanned w _ _
  · rintro (hp | hp)
    · exact hfail _ hp rfl
    · exact hfail _ hp rfl
  · intro result hp hs hd
    exact hfail result hp (expenseReplyText_no_data w result hs hd)
  · intro result data hp hs hd hj
    exact hfail result hp (expenseReplyText_no_jumlah w result data hs hd hj)
  · intro result hp hshape
    have htext : expenseReplyText w result =
        .ok "❌ *Error:* undefined\n\n📖 Format: #kategori jumlah keterangan" := by
      rcases hshape with ⟨s, rfl⟩ | ⟨hs, hm⟩
      · exact expenseReplyText_no_status w (.str s) rfl rfl
      · exact expenseReplyText_no_status w result hs hm
    rw [handleExpenseMessage_eq]
    simp only [plannedText, hp, htext]
    exact handlerRun_planned w _ _ _

/-- The statement of C10 at concrete worlds, one for each of its cases, with
the hypotheses checked. -/
theorem handleExpenseMessage_failure_reply_witness :
    (timeoutWorld.post sampleUrl "#jajan 15000 bakso" = none ∧
      handleExpenseMessage timeoutWorld sampleUrl "#jajan 15000 bakso" [] =
        { trace := [.post sampleUrl "#jajan 15000 bakso", .reply expenseFailureText],
          threw := !timeoutWorld.replyOk 0 }) ∧
    (nullBodyWorld.post sampleUrl "#jajan 15000 bakso" = some .null ∧
      handleExpenseMessage nullBodyWorld sampleUrl "#jajan 15000 bakso" [] =
        { trace := [.post sampleUrl "#jajan 15000 bakso", .reply expenseFailureText],
          threw := !nullBodyWorld.replyOk 0 }) ∧
    (noDataWorld.post sampleUrl "#jajan 15000 bakso" =
        some (.obj [("status", .str "success")]) ∧
      handleExpenseMessage noDataWorld sampleUrl "#jajan 15000 bakso" [] =
        { trace := [.post sampleUrl "#jajan 15000 bakso", .reply expenseFailureText],
          threw := !noDataWorld.replyOk 0 }) ∧
    (noJumlahWorld.post sampleUrl "#jajan 15000 bakso" =
        some (.obj [("status", .str "success"),
          ("data", .obj [("kategori", .str "jajan"), ("keterangan", .str "bakso")])]) ∧
      handleExpenseMessage noJumlahWorld sampleUrl "#jajan 15000 bakso" [] =
        { trace := [.post sampleUrl "#jajan 15000 bakso", .reply expenseFailureText],
          threw := !noJumlahWorld.replyOk 0 }) ∧
    (expenseReplyText nullBodyWorld .null = .error () ∧
      handleExpenseMessage nullBodyWorld sampleUrl "#jajan 15000 bakso" [] =
        { trace := [.post sampleUrl "#jajan 15000 bakso", .reply expenseFailureText],
          threw := !nullBodyWorld.replyOk 0 }) ∧
    (htmlBodyWorld.post sampleUrl "#jajan 15000 bakso" =
        some (.str "<html>502 Bad Gateway</html>") ∧
      handleExpenseMessage htmlBodyWorld sampleUrl "#jajan 15000 bakso" [] =
        (if htmlBodyWorld.replyOk 0 = true then
          { trace := [.post sampleUrl "#jajan 15000 bakso",
              .reply "❌ *Error:* undefined\n\n📖 Format: #kategori jumlah keterangan"],
            threw := false }
        else
          { trace := [.post sampleUrl "#jajan 15000 bakso",
              .reply "❌ *Error:* undefined\n\n📖 Format: #kategori jumlah keterangan",
              .reply expenseFailureText],
            threw := !htmlBodyWorld.replyOk 1 })) ∧
    (unexpectedBodyWorld.post sampleUrl "#jajan 15000 bakso" =
        some (.obj [("ok", .bool true)]) ∧
      handleExpenseMessage unexpectedBodyWorld sampleUrl "#jajan 15000 bakso" [] =
        (if unexpectedBodyWorld.replyOk 0 = true then
          { trace := [.post sampleUrl "#jajan 15000 bakso",
              .reply "❌ *Error:* undefined\n\n📖 Format: #kategori jumlah keterangan"],
            threw := false }
        else
          { trace := [.post sampleUrl "#jajan 15000 bakso",
              .reply "❌ *Error:* undefined\n\n📖 Format: #kategori jumlah keterangan",
              .reply expenseFailureText],
            threw := !unexpectedBodyWorld.replyOk 1 })) :=
  ⟨⟨rfl, (handleExpenseMessage_failure_reply timeoutWorld sampleUrl
      "#jajan 15000 bakso").1 rfl⟩,
    ⟨rfl, (handleExpenseMessage_failure_reply nullBodyWorld sampleUrl
      "#jajan 15000 bakso").2.1 (Or.inl rfl)⟩,
    ⟨rfl, (handleExpenseMessage_failure_reply noDataWorld sampleUrl
      "#jajan 15000 bakso").2.2.1 _ rfl rfl (Or.inl rfl)⟩,
    ⟨rfl, (handleExpenseMessage_failure_reply noJumlahWorld sampleUrl
      "#jajan 15000 bakso").2.2.2.1 _ _ rfl rfl rfl (Or.inl rfl)⟩,
    ⟨rfl, (handleExpenseMessage_failure_reply nullBodyWorld sampleUrl
      "#jajan 15000 bakso").2.2.2.2.1 _ rfl rfl⟩,
    ⟨rfl, (handleExpenseMessage_failure_reply htmlBodyWorld sampleUrl
      "#jajan 15000 bakso").2.2.2.2.2 _ rfl (Or.inl ⟨_, rfl⟩)⟩,
    ⟨rfl, (handleExpenseMessage_failure_reply unexpectedBodyWorld sampleUrl
      "#jajan 15000 bakso").2.2.2.2.2 _ rfl (Or.inr ⟨rfl, rfl⟩)⟩⟩

/-- C10 (the claim as written fails). The expense endpoint answers with a
body that is not the expected object: a JSON object without status, or a
page that is no JSON text. handleExpenseMessage does not reply with the fixed
failure text: the status read is undefined, the else branch runs, and the
reply is the error line with the message undefined. -/
theorem handleExpenseMessage_unexpected_body_not_failure_text :
    replies (handleExpenseMessage unexpectedBodyWorld sampleUrl "#jajan 15000 bakso" []).trace =
        ["❌ *Error:* undefined\n\n📖 Format: #kategori jumlah keterangan"] ∧
      replies (handleExpenseMessage unexpectedBodyWorld sampleUrl "#jajan 15000 bakso"
        []).trace ≠ [expenseFailureText] ∧
      replies (handleExpenseMessage htmlBodyWorld sampleUrl "#jajan 15000 bakso" []).trace =
        ["❌ *Error:* undefined\n\n📖 Format: #kategori jumlah keterangan"] := by
  refine ⟨by decide, by decide, by decide⟩

/-- C9 (as the code behaves). sendHelpMessage sends no request: its only
call is one reply, with the constant help text, whatever the message and the
world. The help text has several lines and contains the expense format, four
worked examples and the keywords laporan and help; it does not contain the
keyword report, nor the question mark. -/
theorem sendHelpMessage_fixed_text (w : World) (tr : List Effect) :
    (sendHelpMessage w tr).trace = tr ++ [.reply helpText] ∧
      remoteCalls (sendHelpMessage w []).trace = [] ∧
      includes helpText "\n" = true ∧
      includes helpText "#kategori jumlah keterangan" = true ∧
      includes helpText "#jajan 15000 bakso" = true ∧
      includes helpText "#transport 25000 ojek ke kantor" = true ∧
      includes helpText "#makan 30000 nasi padang" = true ∧
      includes helpText "#kopi 12000 es kopi susu" = true ∧
      includes helpText "laporan" = true ∧
      includes helpText "help" = true ∧
      includes helpText "report" = false ∧
      includes helpText "?" = false := by
  refine ⟨rfl, rfl, ?_, ?_, ?_, ?_, ?_, ?_, ?_, ?_, ?_, ?_⟩ <;> decide

/-- C9 (the claim as written fails). The help text contains neither the
keyword report nor the question mark, although handleMessage accepts both. -/
theorem helpText_lacks_report_and_question_mark :
    includes helpText "report" = false ∧ includes helpText "?" = false := by
  constructor <;> decide

theorem isPrefixOf_length_le (pat l : List Char) (h : pat.isPrefixOf l = true) :
    pat.length ≤ l.length := by
  induction pat generalizing l with
  | nil => simp
  | cons p ps ih =>
    cases l with
    | nil => simp [List.isPrefixOf] at h
    | cons c cs =>
      simp only [List.isPrefixOf, Bool.and_eq_true] at h
      have := ih cs h.2
      simp only [List.length_cons]
      omega

theorem take_of_isPrefixOf (pat l : List Char) (h : pat.isPrefixOf l = true) :
    l.take pat.length = pat := by
  induction pat generalizing l with
  | nil => simp
  | cons p ps ih =>
    cases l with
    | nil => simp [List.isPrefixOf] at h
    | cons c cs =>
      simp only [List.isPrefixOf, Bool.and_eq_true, beq_iff_eq] at h
      simp [h.1, ih cs h.2]

theorem replaceFirst_none (pat rep : List Char) : ∀ (l : List Char) (k : Nat),
    indexOfFrom pat l k = none → replaceFirst pat rep l = l := by
  intro l
  induction l with
  | nil =>
    intro k h
    by_cases hp : pat = [] <;> simp [indexOfFrom, replaceFirst, hp] at h ⊢
  | cons c cs ih =>
    intro k h
    by_cases hp : pat.isPrefixOf (c :: cs) = true
    · simp [indexOfFrom, hp] at h
    · simp only [indexOfFrom, hp, if_false, Bool.false_eq_true] at h
      simp only [replaceFirst, hp, if_false, Bool.false_eq_true]
      rw [ih (k + 1) h]

theorem replaceFirst_some (pat rep : List Char) : ∀ (l : List Char) (k j : Nat),
    indexOfFrom pat l k = some j →
      k ≤ j ∧ replaceFirst pat rep l = l.take (j - k) ++ rep ++ l.drop (j - k + pat.length) ∧
        j - k + pat.length ≤ l.length ∧ pat.isPrefixOf (l.drop (j - k)) = true := by
  intro l
  induction l with
  | nil =>
    intro k j h
    by_cases hp : pat = []
    · simp only [indexOfFrom, hp, if_true, Option.some.injEq] at h
      subst h
      simp [replaceFirst, hp]
    · simp [indexOfFrom, hp] at h
  | cons c cs ih =>
    intro k j h
    by_cases hp : pat.isPrefixOf (c :: cs) = true
    · simp only [indexOfFrom, hp, if_true, Option.some.injEq] at h
      subst h
      have hlen := isPrefixOf_length_le pat (c :: cs) hp
      simp only [replaceFirst, hp, if_true, Nat.sub_self, List.take_zero, List.nil_append,
        Nat.zero_add, List.drop_zero, le_refl, true_and, and_true]
      exact hlen
    · simp only [indexOfFrom, hp, if_false, Bool.false_eq_true] at h
      obtain ⟨hle, heq, hlen, hpre⟩ := ih (k + 1) j h
      have hjk : j - k = (j - (k + 1)) + 1 := by omega
      refine ⟨by omega, ?_, ?_, ?_⟩
      · simp only [replaceFirst, hp, if_false, Bool.false_eq_true]
        rw [heq, hjk]
        simp [Nat.add_right_comm]
      · simp only [List.length_cons]; omega
      · rw [hjk]; simpa using hpre

/-- C8 (as the code behaves). The GET of handleReportRequest goes to the
configured address with the first occurrence of /webhook replaced by
/report. When the address contains /webhook, the report address differs from
it; when the address ends in /webhook and has no earlier occurrence, the
trailing segment is the one replaced. When the address does not contain
/webhook, the GET goes to the configured address itself. -/
theorem reportUrl_replaces_first_webhook (w : World) (url : String) :
    (∃ rest, (handleReportRequest w url []).trace = Effect.get (reportUrl url) :: rest ∧
      remoteCalls rest = []) ∧
    (includes url "/webhook" = false → reportUrl url = url) ∧
    (∀ i, indexOfFrom "/webhook".data url.data 0 = some i →
      (url.data.drop i).take 8 = "/webhook".data ∧
      reportUrl url = ⟨url.data.take i ++ "/report".data ++ url.data.drop (i + 8)⟩ ∧
      reportUrl url ≠ url) ∧
    (∀ base : String, url = base ++ "/webhook" →
      indexOfFrom "/webhook".data url.data 0 = some base.length →
      reportUrl url = base ++ "/report") := by
  have hsome : ∀ i, indexOfFrom "/webhook".data url.data 0 = some i →
      reportUrl url = ⟨url.data.take i ++ "/report".data ++ url.data.drop (i + 8)⟩ ∧
      i + 8 ≤ url.data.length ∧ "/webhook".data.isPrefixOf (url.data.drop i) = true := by
    intro i hi
    obtain ⟨_, heq, hlen, hpre⟩ := replaceFirst_some "/webhook".data "/report".data url.data 0 i hi
    refine ⟨?_, hlen, hpre⟩
    simp only [reportUrl, replace, heq]
    rfl
  refine ⟨?_, ?_, ?_, ?_⟩
  · rw [handleReportRequest_eq]
    obtain ⟨rest, hr, hc, _⟩ := handlerRun_trace w (.get (reportUrl url))
      (plannedText (w.get (reportUrl url)) (reportReplyText w)) reportFailureText []
    exact ⟨rest, by simpa using hr, hc⟩
  · intro h
    have hnone : indexOfFrom "/webhook".data url.data 0 = none := by
      simpa [includes] using h
    simp only [reportUrl, replace, replaceFirst_none _ _ _ _ hnone]
  · intro i hi
    obtain ⟨heq, hlen, hpre⟩ := hsome i hi
    refine ⟨?_, heq, ?_⟩
    · exact take_of_isPrefixOf "/webhook".data (url.data.drop i) hpre
    · intro hcontra
      have hl := congrArg (fun s : String => s.data.length) (heq.symm.trans hcontra)
      simp only [List.length_append, List.length_take, List.length_drop] at hl
      have h7 : "/report".data.length = 7 := rfl
      rw [h7] at hl
      omega
  · intro base hb hi
    obtain ⟨heq, _, _⟩ := hsome base.length hi
    rw [heq]
    subst hb
    apply String.ext
    have hlen : base.length = base.data.length := rfl
    have h8 : List.drop 8 "/webhook".data = [] := rfl
    simp only [String.data_append, hlen, List.take_left, List.drop_append, h8,
      List.append_nil]

/-- The statement of C8 at concrete sample data, with its hypotheses checked. -/
theorem reportUrl_replaces_first_webhook_witness :
    (includes "https://catatuang.example.com/api/hook" "/webhook" = false ∧
      reportUrl "https://catatuang.example.com/api/hook" =
        "https://catatuang.example.com/api/hook") ∧
    (indexOfFrom "/webhook".data sampleUrl.data 0 = some 31 ∧
      (sampleUrl.data.drop 31).take 8 = "/webhook".data ∧
      reportUrl sampleUrl =
        ⟨sampleUrl.data.take 31 ++ "/report".data ++ sampleUrl.data.drop (31 + 8)⟩ ∧
      reportUrl sampleUrl ≠ sampleUrl) ∧
    (sampleUrl = "https://your-app.vercel.app/api" ++ "/webhook" ∧
      reportUrl sampleUrl = "https://your-app.vercel.app/api" ++ "/report") :=
  ⟨⟨by decide, (reportUrl_replaces_first_webhook sampleWorld
      "https://catatuang.example.com/api/hook").2.1 (by decide)⟩,
    ⟨by decide, (reportUrl_replaces_first_webhook sampleWorld sampleUrl).2.2.1 31 (by decide)⟩,
    ⟨by decide, (reportUrl_replaces_first_webhook sampleWorld sampleUrl).2.2.2
      "https://your-app.vercel.app/api" (by decide) (by decide)⟩⟩

/-- C8 (the claim as written fails). For an address without /webhook the GET
goes to the configured address itself, and for an address whose host name
starts with webhook the host is changed and the trailing segment is kept. -/
theorem reportUrl_not_always_trailing_sibling :
    reportUrl "https://catatuang.example.com/api/hook" =
        "https://catatuang.example.com/api/hook" ∧
      reportUrl "https://webhook.example.com/api/webhook" =
        "https://report.example.com/api/webhook" := by
  constructor <;> decide

theorem ownPropertyOrder_perm {α : Type} (l : List (String × α)) :
    (ownPropertyOrder l).Perm l := by
  unfold ownPropertyOrder
  exact ((List.perm_insertionSort _ _).append_right _).trans (List.filter_append_perm _ l)

theorem ownPropertyOrder_eq_self {α : Type} (l : List (String × α))
    (h : ∀ p ∈ l, arrayIndex? p.1 = none) : ownPropertyOrder l = l := by
  unfold ownPropertyOrder
  have h1 : l.filter (fun p => (arrayIndex? p.1).isSome) = [] := by
    rw [List.filter_eq_nil_iff]
    intro p hp
    simp [h p hp]
  have h2 : l.filter (fun p => !(arrayIndex? p.1).isSome) = l := by
    rw [List.filter_eq_self]
    intro p hp
    simp [h p hp]
  rw [h1, h2]
  rfl

theorem ownPropertyOrder_numProps (l : List (String × Nat)) :
    ownPropertyOrder (numProps l) = numProps (ownPropertyOrder l) := by
  unfold ownPropertyOrder numProps
  rw [List.map_append, List.filter_map, List.filter_map]
  congr 1
  exact (List.map_insertionSort
    (fun p q : String × Nat => (arrayIndex? p.1).getD 0 ≤ (arrayIndex? q.1).getD 0)
    (fun p q : String × JSVal => (arrayIndex? p.1).getD 0 ≤ (arrayIndex? q.1).getD 0)
    (fun p : String × Nat => (p.1, JSVal.num p.2)) _ (fun a _ b _ => Iff.rfl)).symm


theorem lookupProp_numProps (key : String) (cs : List (String × Nat)) :
    lookupProp key (numProps cs) = (lookupNat key cs).map JSVal.num := by
  induction cs with
  | nil => rfl
  | cons p rest ih =>
    obtain ⟨k, v⟩ := p
    by_cases hk : k = key
    · simp [numProps, lookupProp, lookupNat, hk]
    · have ih2 : lookupProp key (List.map (fun p => (p.1, JSVal.num p.2)) rest) =
          (lookupNat key rest).map JSVal.num := ih
      simp [numProps, lookupProp, lookupNat, hk, ih2]

theorem lookupNat_mem (key : String) (cs : List (String × Nat)) (c : Nat)
    (h : lookupNat key cs = some c) : ∃ p ∈ cs, p.2 = c := by
  induction cs with
  | nil => simp [lookupNat] at h
  | cons p rest ih =>
    obtain ⟨k, v⟩ := p
    by_cases hk : k = key
    · simp only [lookupNat, hk, if_true, Option.some.injEq] at h
      exact ⟨(k, v), by simp, h⟩
    · simp only [lookupNat, hk, if_false] at h
      obtain ⟨q, hq, hc⟩ := ih h
      exact ⟨q, by simp [hq], hc⟩

theorem countShown_safe (counts : Option (List (String × Nat))) (kategori : String)
    (hsafe : ∀ cs, counts = some cs → ∀ p ∈ cs, p.2 < safeBound) :
    countShown counts kategori < safeBound := by
  cases counts with
  | none => simp [countShown, safeBound]
  | some cs =>
    simp only [countShown]
    cases hl : lookupNat kategori cs with
    | none => simp [safeBound]
    | some c =>
      obtain ⟨p, hp, hc⟩ := lookupNat_mem kategori cs c hl
      simpa [hc] using hsafe cs rfl p hp

theorem orElse_num (c : Nat) : orElse (.num c) (.num 0) = .num c := by
  unfold orElse truthy
  by_cases hc : c = 0 <;> simp [hc]

theorem categoryCount_shown (w : World) (summary : JSVal)
    (counts : Option (List (String × Nat))) (kategori : String)
    (hcounts : match counts with
      | none => getProp summary "category_counts" = .ok .undefined ∨
          getProp summary "category_counts" = .ok .null
      | some cs => getProp summary "category_counts" = .ok (.obj (numProps cs)))
    (hproto : kategori ∉ objectPrototypeKeys) :
    categoryCount w summary kategori = .ok (.num (countShown counts kategori)) := by
  cases counts with
  | none =>
    rcases hcounts with h | h <;>
      simp [categoryCount, h, bind, Except.bind, pure, Except.pure, orElse, truthy, countShown]
  | some cs =>
    have h : getProp summary "category_counts" = .ok (.obj (numProps cs)) := hcounts
    simp only [categoryCount, h, bind, Except.bind, pure, Except.pure, countShown]
    simp only [getProp, lookupProp_numProps]
    cases hl : lookupNat kategori cs with
    | none => simp [hproto, orElse, truthy]
    | some c => simp [orElse_num]

theorem categoryLine_eq (w : World) (summary : JSVal) (counts : Option (List (String × Nat)))
    (entry : String × Nat)
    (hcounts : match counts with
      | none => getProp summary "category_counts" = .ok .undefined ∨
          getProp summary "category_counts" = .ok .null
      | some cs => getProp summary "category_counts" = .ok (.obj (numProps cs)))
    (hproto : entry.1 ∉ objectPrototypeKeys)
    (hsafe : entry.2 < safeBound)
    (hcountsSafe : ∀ cs, counts = some cs → ∀ p ∈ cs, p.2 < safeBound) :
    categoryLine w summary (entry.1, JSVal.num entry.2) =
      .ok (categoryLineText counts entry) := by
  simp [categoryLine, categoryCount_shown w summary counts entry.1 hcounts hproto, bind,
    Except.bind, pure, Except.pure, toLocaleString, toStr, categoryLineText,
    numberToLocaleString_safe w entry.2 hsafe,
    numberToString_safe w _ (countShown_safe counts entry.1 hcountsSafe)]

theorem join_cons_eq (a : String) (l : List String) :
    String.join (a :: l) = a ++ String.join l := by
  apply String.ext
  simp [String.data_join]

theorem categoryLines_eq (w : World) (summary : JSVal) (counts : Option (List (String × Nat)))
    (hcounts : match counts with
      | none => getProp summary "category_counts" = .ok .undefined ∨
          getProp summary "category_counts" = .ok .null
      | some cs => getProp summary "category_counts" = .ok (.obj (numProps cs)))
    (hcountsSafe : ∀ cs, counts = some cs → ∀ p ∈ cs, p.2 < safeBound) :
    ∀ (entries : List (String × Nat)) (acc : String),
      (∀ p ∈ entries, p.1 ∉ objectPrototypeKeys ∧ p.2 < safeBound) →
      categoryLines w summary (numProps entries) acc =
        .ok (acc ++ String.join (entries.map (categoryLineText counts))) := by
  intro entries
  induction entries with
  | nil =>
    intro acc _
    simp [numProps, categoryLines, String.join, pure, Except.pure]
  | cons e rest ih =>
    intro acc hp
    have he := hp e (by simp)
    have hline := categoryLine_eq w summary counts e hcounts he.1 he.2 hcountsSafe
    have hrest := ih (acc ++ categoryLineText counts e) (fun p hm => hp p (by simp [hm]))
    have hnum : numProps (e :: rest) = (e.1, JSVal.num e.2) :: numProps rest := rfl
    rw [hnum]
    simp only [categoryLines, hline, bind, Except.bind, hrest, List.map_cons, join_cons_eq,
      String.append_assoc]

theorem reportReplyText_success (w : World) (result summary : JSVal)
    (cats : List (String × Nat)) (counts : Option (List (String × Nat)))
    (total transactions : Nat)
    (hstatus : getProp result "status" = .ok (.str "success"))
    (hsummary : getProp result "summary" = .ok summary)
    (hcats : getProp summary "categories" = .ok (.obj (numProps cats)))
    (hcounts : match counts with
      | none => getProp summary "category_counts" = .ok .undefined ∨
          getProp summary "category_counts" = .ok .null
      | some cs => getProp summary "category_counts" = .ok (.obj (numProps cs)))
    (htotal : getProp summary "total_expense" = .ok (.num total))
    (htrans : getProp summary "total_transactions" = .ok (.num transactions))
    (hproto : ∀ p ∈ cats, p.1 ∉ objectPrototypeKeys)
    (hcatsSafe : ∀ p ∈ cats, p.2 < safeBound)
    (hcountsSafe : ∀ cs, counts = some cs → ∀ p ∈ cs, p.2 < safeBound)
    (htotalSafe : total < safeBound)
    (htransSafe : transactions < safeBound) :
    reportReplyText w result = .ok
      ("📊 *LAPORAN PENGELUARAN* 📊\n\n" ++
        String.join ((ownPropertyOrder cats).map (categoryLineText counts)) ++
        ("\n💰 *Total:* Rp " ++ groupedText total ++ "\n") ++
        ("📝 *Transaksi:* " ++ decimalText transactions ++ "\n\n") ++
        ("🕒 *Dibuat:* " ++ w.now)) := by
  have hp : ∀ p ∈ ownPropertyOrder cats, p.1 ∉ objectPrototypeKeys ∧ p.2 < safeBound :=
    fun p hm =>
      ⟨hproto p ((ownPropertyOrder_perm cats).mem_iff.mp hm),
        hcatsSafe p ((ownPropertyOrder_perm cats).mem_iff.mp hm)⟩
  have hlines := categoryLines_eq w summary counts hcounts hcountsSafe (ownPropertyOrder cats)
    "📊 *LAPORAN PENGELUARAN* 📊\n\n" hp
  simp only [reportReplyText, hstatus, hsummary, hcats, htotal, htrans, strictEqStr, bind,
    Except.bind, pure, Except.pure, if_true, decide_True, orElse, truthy, objectEntries,
    ownPropertyOrder_numProps, hlines, toLocaleString, toStr,
    numberToLocaleString_safe w total htotalSafe, numberToString_safe w transactions htransSafe]

/-- C7 (as the code behaves). The report endpoint answers with status
success and a summary whose categories is an object of non-negative integers
below 2^53, whose category_counts is undefined, null or an object of such
integers, and whose total_expense and total_transactions are such integers;
no category is named like a member of Object.prototype and no two categories
have the same name. Then the rendering does not throw and the first reply
call of handleReportRequest carries: the heading, one line per property of
categories giving its name, its total grouped by three digits and its count
(0 when category_counts is absent or lacks the key), then the total line
with total_expense grouped by three digits, the line of total_transactions
and the time stamp. The category lines come in the order of Object.entries:
every property exactly once, the names that are array indices first in
ascending numeric order, the other names after them in insertion order; this
is the insertion order when no name is an array index. When the reply call
is delivered the handler makes no other call and does not throw; when it is
rejected the catch block replies with the failure text, and the handler
throws exactly when that call is rejected too. -/
theorem handleReportRequest_success_reply (w : World) (url : String)
    (result summary : JSVal) (cats : List (String × Nat))
    (counts : Option (List (String × Nat))) (total transactions : Nat)
    (hget : w.get (reportUrl url) = some result)
    (hstatus : getProp result "status" = .ok (.str "success"))
    (hsummary : getProp result "summary" = .ok summary)
    (hcats : getProp summary "categories" = .ok (.obj (numProps cats)))
    (hcounts : match counts with
      | none => getProp summary "category_counts" = .ok .undefined ∨
          getProp summary "category_counts" = .ok .null
      | some cs => getProp summary "category_counts" = .ok (.obj (numProps cs)))
    (htotal : getProp summary "total_expense" = .ok (.num total))
    (htrans : getProp summary "total_transactions" = .ok (.num transactions))
    (hproto : ∀ p ∈ cats, p.1 ∉ objectPrototypeKeys)
    (hnodup : (cats.map Prod.fst).Nodup)
    (hcatsSafe : ∀ p ∈ cats, p.2 < safeBound)
    (hcountsSafe : ∀ cs, counts = some cs → ∀ p ∈ cs, p.2 < safeBound)
    (htotalSafe : total < safeBound)
    (htransSafe : transactions < safeBound) :
    reportReplyText w result = .ok
        ("📊 *LAPORAN PENGELUARAN* 📊\n\n" ++
          String.join ((ownPropertyOrder cats).map fun entry =>
            "• *" ++ entry.1 ++ ":* Rp " ++ groupedText entry.2 ++ " (" ++
              decimalText (countShown counts entry.1) ++ "x)\n") ++
          ("\n💰 *Total:* Rp " ++ groupedText total ++ "\n") ++
          ("📝 *Transaksi:* " ++ decimalText transactions ++ "\n\n") ++
          ("🕒 *Dibuat:* " ++ w.now)) ∧
      handleReportRequest w url [] =
        (if w.replyOk 0 = true then
          { trace := [.get (reportUrl url), .reply
              ("📊 *LAPORAN PENGELUARAN* 📊\n\n" ++
                String.join ((ownPropertyOrder cats).map fun entry =>
                  "• *" ++ entry.1 ++ ":* Rp " ++ groupedText entry.2 ++ " (" ++
                    decimalText (countShown counts entry.1) ++ "x)\n") ++
                ("\n💰 *Total:* Rp " ++ groupedText total ++ "\n") ++
                ("📝 *Transaksi:* " ++ decimalText transactions ++ "\n\n") ++
                ("🕒 *Dibuat:* " ++ w.now))],
            threw := false }
        else
          { trace := [.get (reportUrl url), .reply
              ("📊 *LAPORAN PENGELUARAN* 📊\n\n" ++
                String.join ((ownPropertyOrder cats).map fun entry =>
                  "• *" ++ entry.1 ++ ":* Rp " ++ groupedText entry.2 ++ " (" ++
                    decimalText (countShown counts entry.1) ++ "x)\n") ++
                ("\n💰 *Total:* Rp " ++ groupedText total ++ "\n") ++
                ("📝 *Transaksi:* " ++ decimalText transactions ++ "\n\n") ++
                ("🕒 *Dibuat:* " ++ w.now)), .reply reportFailureText],
            threw := !w.replyOk 1 }) ∧
      (∀ p ∈ cats, GroupedDecimal p.2 (groupedText p.2)) ∧
      GroupedDecimal total (groupedText total) ∧
      (ownPropertyOrder cats).Perm cats ∧
      ((ownPropertyOrder cats).map Prod.fst).Nodup ∧
      ((∀ p ∈ cats, arrayIndex? p.1 = none) → ownPropertyOrder cats = cats) ∧
      ∃ indexed : List (String × Nat),
        ownPropertyOrder cats =
          indexed ++ cats.filter (fun p => !(arrayIndex? p.1).isSome) ∧
        indexed.Perm (cats.filter fun p => (arrayIndex? p.1).isSome) ∧
        (indexed.map fun p => (arrayIndex? p.1).getD 0).Sorted (· ≤ ·) := by
  have hperm := ownPropertyOrder_perm cats
  have htext := reportReplyText_success w result summary cats counts total transactions
    hstatus hsummary hcats hcounts htotal htrans hproto hcatsSafe hcountsSafe htotalSafe
    htransSafe
  refine ⟨htext, ?_, fun p _ => groupedText_grouped p.2, groupedText_grouped total, hperm, ?_,
    ownPropertyOrder_eq_self cats, ?_⟩
  · rw [handleReportRequest_eq]
    simp only [plannedText, hget, htext]
    exact handlerRun_planned w _ _ _
  · exact (hperm.map Prod.fst).nodup_iff.mpr hnodup
  · haveI : IsTotal (String × Nat)
        (fun p q => (arrayIndex? p.1).getD 0 ≤ (arrayIndex? q.1).getD 0) :=
      ⟨fun a b => Nat.le_total _ _⟩
    haveI : IsTrans (String × Nat)
        (fun p q => (arrayIndex? p.1).getD 0 ≤ (arrayIndex? q.1).getD 0) :=
      ⟨fun a b c hab hbc => Nat.le_trans hab hbc⟩
    refine ⟨_, rfl, List.perm_insertionSort _ _, ?_⟩
    have hs := List.sorted_insertionSort
      (fun p q : String × Nat => (arrayIndex? p.1).getD 0 ≤ (arrayIndex? q.1).getD 0)
      (cats.filter fun p => (arrayIndex? p.1).isSome)
    exact List.pairwise_map.mpr hs

/-- The statement of C7 at the sample summary, with its hypotheses checked. -/
theorem handleReportRequest_success_reply_witness :
    (sampleWorld.get (reportUrl sampleUrl) =
        some (.obj [("status", .str "success"), ("summary", sampleSummary)]) ∧
      (∀ p ∈ [("jajan", 15000), ("transport", 25000)], p.1 ∉ objectPrototypeKeys) ∧
      (([("jajan", 15000), ("transport", 25000)] : List (String × Nat)).map Prod.fst).Nodup ∧
      (∀ p ∈ ([("jajan", 15000), ("transport", 25000)] : List (String × Nat)),
        p.2 < safeBound) ∧
      (∀ p ∈ ([("jajan", 1), ("transport", 1)] : List (String × Nat)), p.2 < safeBound) ∧
      40000 < safeBound ∧ 2 < safeBound) ∧
    (reportReplyText sampleWorld
        (.obj [("status", .str "success"), ("summary", sampleSummary)]) = .ok
        ("📊 *LAPORAN PENGELUARAN* 📊\n\n" ++
          String.join ((ownPropertyOrder [("jajan", 15000), ("transport", 25000)]).map
            fun entry =>
            "• *" ++ entry.1 ++ ":* Rp " ++ groupedText entry.2 ++ " (" ++
              decimalText (countShown (some [("jajan", 1), ("transport", 1)]) entry.1) ++
              "x)\n") ++
          ("\n💰 *Total:* Rp " ++ groupedText 40000 ++ "\n") ++
          ("📝 *Transaksi:* " ++ decimalText 2 ++ "\n\n") ++
          ("🕒 *Dibuat:* " ++ sampleWorld.now)) ∧
      handleReportRequest sampleWorld sampleUrl [] =
        (if sampleWorld.replyOk 0 = true then
          { trace := [.get (reportUrl sampleUrl), .reply
              ("📊 *LAPORAN PENGELUARAN* 📊\n\n" ++
                String.join ((ownPropertyOrder [("jajan", 15000), ("transport", 25000)]).map
                  fun entry =>
                  "• *" ++ entry.1 ++ ":* Rp " ++ groupedText entry.2 ++ " (" ++
                    decimalText (countShown (some [("jajan", 1), ("transport", 1)])
                      entry.1) ++ "x)\n") ++
                ("\n💰 *Total:* Rp " ++ groupedText 40000 ++ "\n") ++
                ("📝 *Transaksi:* " ++ decimalText 2 ++ "\n\n") ++
                ("🕒 *Dibuat:* " ++ sampleWorld.now))],
            threw := false }
        else
          { trace := [.get (reportUrl sampleUrl), .reply
              ("📊 *LAPORAN PENGELUARAN* 📊\n\n" ++
                String.join ((ownPropertyOrder [("jajan", 15000), ("transport", 25000)]).map
                  fun entry =>
                  "• *" ++ entry.1 ++ ":* Rp " ++ groupedText entry.2 ++ " (" ++
                    decimalText (countShown (some [("jajan", 1), ("transport", 1)])
                      entry.1) ++ "x)\n") ++
                ("\n💰 *Total:* Rp " ++ groupedText 40000 ++ "\n") ++
                ("📝 *Transaksi:* " ++ decimalText 2 ++ "\n\n") ++
                ("🕒 *Dibuat:* " ++ sampleWorld.now)), .reply reportFailureText],
            threw := !sampleWorld.replyOk 1 }) ∧
      (∀ p ∈ ([("jajan", 15000), ("transport", 25000)] : List (String × Nat)),
        GroupedDecimal p.2 (groupedText p.2)) ∧
      GroupedDecimal 40000 (groupedText 40000) ∧
      (ownPropertyOrder [("jajan", 15000), ("transport", 25000)]).Perm
        [("jajan", 15000), ("transport", 25000)] ∧
      ((ownPropertyOrder ([("jajan", 15000), ("transport", 25000)] :
        List (String × Nat))).map Prod.fst).Nodup ∧
      ((∀ p ∈ ([("jajan", 15000), ("transport", 25000)] : List (String × Nat)),
          arrayIndex? p.1 = none) →
        ownPropertyOrder ([("jajan", 15000), ("transport", 25000)] : List (String × Nat)) =
          [("jajan", 15000), ("transport", 25000)]) ∧
      ∃ indexed : List (String × Nat),
        ownPropertyOrder [("jajan", 15000), ("transport", 25000)] =
          indexed ++ List.filter (fun p => !(arrayIndex? p.1).isSome)
            [("jajan", 15000), ("transport", 25000)] ∧
        indexed.Perm (List.filter (fun p => (arrayIndex? p.1).isSome)
          [("jajan", 15000), ("transport", 25000)]) ∧
        (indexed.map fun p => (arrayIndex? p.1).getD 0).Sorted (· ≤ ·)) :=
  ⟨⟨rfl, by decide, by decide, by decide, by decide, by decide, by decide⟩,
    handleReportRequest_success_reply sampleWorld sampleUrl
      (.obj [("status", .str "success"), ("summary", sampleSummary)]) sampleSummary
      [("jajan", 15000), ("transport", 25000)] (some [("jajan", 1), ("transport", 1)])
      40000 2 rfl rfl rfl rfl rfl rfl rfl (by decide) (by decide) (by decide)
      (by intro cs hcs; cases hcs; decide) (by decide) (by decide)⟩

/-- C7 (the claim as written fails). The report endpoint answers with the
categories makan and 2024, inserted in this order. The reply lists 2024
first: Object.entries yields the names that are array indices before the
other names, not the insertion order. Moreover, for a category named
constructor that category_counts lacks, the count shown is not 0: the lookup
finds the member inherited from Object.prototype. -/
theorem handleReportRequest_lists_index_names_first :
    replies (handleReportRequest yearWorld sampleUrl []).trace =
      ["📊 *LAPORAN PENGELUARAN* 📊\n\n" ++
        "• *2024:* Rp 5.000 (1x)\n" ++
        "• *makan:* Rp 30.000 (2x)\n" ++
        "\n💰 *Total:* Rp 35.000\n" ++
        "📝 *Transaksi:* 3\n\n" ++
        "🕒 *Dibuat:* 1/1/2024, 10.00.00"] ∧
    replies (handleReportRequest yearWorld sampleUrl []).trace ≠
      ["📊 *LAPORAN PENGELUARAN* 📊\n\n" ++
        "• *makan:* Rp 30.000 (2x)\n" ++
        "• *2024:* Rp 5.000 (1x)\n" ++
        "\n💰 *Total:* Rp 35.000\n" ++
        "📝 *Transaksi:* 3\n\n" ++
        "🕒 *Dibuat:* 1/1/2024, 10.00.00"] ∧
    replies (handleReportRequest constructorWorld sampleUrl []).trace =
      ["📊 *LAPORAN PENGELUARAN* 📊\n\n" ++
        "• *constructor:* Rp 1.000 (function Object() \x7b [native code] \x7dx)\n" ++
        "\n💰 *Total:* Rp 1.000\n" ++
        "📝 *Transaksi:* 1\n\n" ++
        "🕒 *Dibuat:* 1/1/2024, 10.00.00"] := by
  refine ⟨by decide, by decide, by decide⟩

end CatatUang
